import Mathlib

/-!
Verification development for the Aqua Drift movement core.

The embedding below translates, from the repository sources:
  * `Player._resolve_axis` (Aqua.py) — the axis-separated tile collision
    resolver, embedded polymorphically over a linear ordered field `K`
    with a floor function, so that it can be run exactly on `ℚ` and used
    inside the real-valued movement semantics on `ℝ`;
  * `PlayerMovement.update` (player_movement.py) — the movement state
    machine, embedded over `ℝ` (the source computes with Python floats;
    we give the exact real-number semantics of the same expressions),
    with the injected `resolve_axis` callback instantiated with the
    repository's only resolver, `Player._resolve_axis`;
  * `AnimationClip.update` (player_animator.py) — the frame-advance loop;
  * `load_level` / `find_spawn` (Aqua.py) — level loading and spawn
    selection (the file-system probe of `load_level` is modelled as a
    boolean "file found" input; everything else is from the source).
-/

/-- Axis-aligned rectangle with integer coordinates and size, as
`pygame.Rect` (fields `x`, `y`, `w`, `h`; `right = x + w`, `bottom = y + h`). -/
structure Rect where
  x : ℤ
  y : ℤ
  w : ℤ
  h : ℤ
  deriving DecidableEq

/-- `pygame.Rect.colliderect`: strict overlap on both axes (touching edges do
not collide). This is pygame's `_pg_do_rects_intersect`. -/
def collide (a b : Rect) : Bool :=
  decide (a.x < b.x + b.w) && decide (a.y < b.y + b.h) &&
    decide (b.x < a.x + a.w) && decide (b.y < a.y + a.h)

/-- Python `int()` applied to a float: truncation toward zero. -/
def toInt {K : Type} [LinearOrderedField K] [FloorRing K] (q : K) : ℤ :=
  if 0 ≤ q then ⌊q⌋ else ⌈q⌉

/-- The combined movement/collision state: the fields of `PlayerMovement`
(player_movement.py) together with the position `x`, `y` and collision box
size `w`, `h` that `Player._resolve_axis` (Aqua.py) reads and writes. -/
structure MState (K : Type) where
  x : K
  y : K
  w : ℤ
  h : ℤ
  vx : K
  vy : K
  on_ground : Bool
  wall_left : Bool
  wall_right : Bool
  facing : ℤ
  is_wall_crouch : Bool
  stick_side : ℤ
  wall_kick_timer : K
  wall_kick_lockout : K
  is_dashing : Bool
  dash_timer : K
  dash_cd : K
  dash_dx : K
  dash_dy : K
  coyote_timer : K
  jump_buffer_timer : K
  jump_hold_timer : K
  deriving DecidableEq

/-- X-axis sweep of `Player._resolve_axis` (`move_x != 0` case): for each
solid tile overlapping the tentative rect, clamp the matching edge and set
the wall-contact flag (`(rect, wall_left, wall_right)` accumulator, tiles
processed in iteration order, last write wins). -/
def sweepX {K : Type} [LinearOrderedField K] (moveX : K) (solids : List Rect)
    (r0 : Rect) : Rect × Bool × Bool :=
  solids.foldl
    (fun acc tile =>
      if collide acc.1 tile then
        if 0 < moveX then
          (⟨tile.x - acc.1.w, acc.1.y, acc.1.w, acc.1.h⟩, acc.2.1, true)
        else
          (⟨tile.x + tile.w, acc.1.y, acc.1.w, acc.1.h⟩, true, acc.2.2)
      else acc)
    (r0, false, false)

/-- The right-wall touch test of `Player._resolve_axis`, line 171:
`rx.right == tile.left and rx.bottom > tile.top and rx.top < tile.bottom`. -/
def touchR (r tile : Rect) : Bool :=
  decide (r.x + r.w = tile.x) && decide (tile.y < r.y + r.h)
    && decide (r.y < tile.y + tile.h)

/-- The left-wall touch test of `Player._resolve_axis`, line 173:
`rx.left == tile.right and rx.bottom > tile.top and rx.top < tile.bottom`. -/
def touchL (r tile : Rect) : Bool :=
  decide (r.x = tile.x + tile.w) && decide (tile.y < r.y + r.h)
    && decide (r.y < tile.y + tile.h)

/-- The floor touch test of `Player._resolve_axis`, line 193:
`ry.bottom == tile.top and ry.right > tile.left and ry.left < tile.right`. -/
def touchB (r tile : Rect) : Bool :=
  decide (r.y + r.h = tile.y) && decide (tile.x < r.x + r.w)
    && decide (r.x < tile.x + tile.w)

/-- X-axis touch probe of `Player._resolve_axis` (`move_x == 0` case):
report a wall on either side whose edge exactly coincides while the vertical
ranges overlap, without moving (`(wall_left, wall_right)` accumulator). -/
def probeX (solids : List Rect) (r : Rect) : Bool × Bool :=
  solids.foldl
    (fun acc tile => (acc.1 || touchL r tile, acc.2 || touchR r tile))
    (false, false)

/-- Y-axis sweep of `Player._resolve_axis` (`move_y != 0` case). The source
mutates `move_y` to `0.0` inside the loop after the first hit, so the
accumulator threads `(rect, move_y, hit_floor)`; after the first hit the
`move_y > 0` test is false and later overlapping tiles clamp the top edge. -/
def sweepY {K : Type} [LinearOrderedField K] (moveY : K) (solids : List Rect)
    (r0 : Rect) : Rect × K × Bool :=
  solids.foldl
    (fun acc tile =>
      if collide acc.1 tile then
        if 0 < acc.2.1 then
          (⟨acc.1.x, tile.y - acc.1.h, acc.1.w, acc.1.h⟩, 0, true)
        else
          (⟨acc.1.x, tile.y + tile.h, acc.1.w, acc.1.h⟩, 0, acc.2.2)
      else acc)
    (r0, moveY, false)

/-- Y-axis touch probe of `Player._resolve_axis` (`move_y == 0` case):
report a floor below whose top edge exactly coincides with the bottom while
the horizontal ranges overlap. -/
def probeY (solids : List Rect) (r : Rect) : Bool :=
  solids.foldl (fun hf tile => hf || touchB r tile) false

/-- The X position after the X phase of `Player._resolve_axis`: the swept
rect's (integral) `x` when `move_x != 0`, else the untouched tentative
float `self.x + move_x`. -/
def resolvedX {K : Type} [LinearOrderedField K] [FloorRing K]
    (solids : List Rect) (s : MState K) (moveX : K) : K :=
  if moveX ≠ 0 then
    ((sweepX moveX solids ⟨toInt (s.x + moveX), toInt s.y, s.w, s.h⟩).1.x : K)
  else s.x + moveX

/-- The `(wall_left, wall_right)` contact flags of `Player._resolve_axis`
(reset every call, then set by the X sweep or the X touch probe). -/
def wallFlags {K : Type} [LinearOrderedField K] [FloorRing K]
    (solids : List Rect) (s : MState K) (moveX : K) : Bool × Bool :=
  if moveX ≠ 0 then
    (sweepX moveX solids ⟨toInt (s.x + moveX), toInt s.y, s.w, s.h⟩).2
  else probeX solids ⟨toInt (s.x + moveX), toInt s.y, s.w, s.h⟩

/-- The Y position after the Y phase of `Player._resolve_axis` (the Y rect
starts from the X-resolved position). -/
def resolvedY {K : Type} [LinearOrderedField K] [FloorRing K]
    (solids : List Rect) (s : MState K) (moveX moveY : K) : K :=
  if moveY ≠ 0 then
    ((sweepY moveY solids
      ⟨toInt (resolvedX solids s moveX), toInt (s.y + moveY), s.w, s.h⟩).1.y : K)
  else s.y + moveY

/-- The `hit_floor` flag of `Player._resolve_axis`: set by a downward hit in
the Y sweep, or by the Y touch probe when `move_y == 0`. -/
def groundFlag {K : Type} [LinearOrderedField K] [FloorRing K]
    (solids : List Rect) (s : MState K) (moveX moveY : K) : Bool :=
  if moveY ≠ 0 then
    (sweepY moveY solids
      ⟨toInt (resolvedX solids s moveX), toInt (s.y + moveY), s.w, s.h⟩).2.2
  else probeY solids
    ⟨toInt (resolvedX solids s moveX), toInt (s.y + moveY), s.w, s.h⟩

/-- `Player._resolve_axis` (Aqua.py, lines 151-201): reset the wall flags,
sweep or probe the X axis on the truncated tentative rect, then sweep or
probe the Y axis from the X-resolved position; store `on_ground`, zero `vy`
on a floor hit, and write back the positions (integral after a nonzero
sweep, the untouched float otherwise). -/
def resolveAxis {K : Type} [LinearOrderedField K] [FloorRing K]
    (solids : List Rect) (s : MState K) (moveX moveY : K) : MState K :=
  { s with
    x := resolvedX solids s moveX
    y := resolvedY solids s moveX moveY
    wall_left := (wallFlags solids s moveX).1
    wall_right := (wallFlags solids s moveX).2
    on_ground := groundFlag solids s moveX moveY
    vy := if groundFlag solids s moveX moveY then 0 else s.vy }

/-! ## Movement state machine (player_movement.py)

The movement tuning constants (player_movement.py, lines 8-28), and the
phases of `PlayerMovement.update`, over `ℝ`.  `update` is the composition
of the phases in source order; the injected `resolve_axis` callback is
instantiated with `Player._resolve_axis` above. -/

noncomputable def ACCEL : ℝ := 900.0
noncomputable def DRAG : ℝ := 2.6
noncomputable def MAX_SPEED : ℝ := 220.0
noncomputable def SINK_ACCEL : ℝ := 120.0
noncomputable def JUMP_SPEED : ℝ := 220.0
noncomputable def JUMP_HOLD_ACCEL : ℝ := 420.0
noncomputable def JUMP_HOLD_TIME : ℝ := 0.18
noncomputable def JUMP_CUT_MULT : ℝ := 0.55
noncomputable def COYOTE_TIME : ℝ := 0.12
noncomputable def JUMP_BUFFER_TIME : ℝ := 0.12
noncomputable def DASH_SPEED : ℝ := 420.0
noncomputable def DASH_TIME : ℝ := 0.18
noncomputable def DASH_COOLDOWN : ℝ := 0.3
noncomputable def WALL_SLIDE_SPEED : ℝ := 24.0
noncomputable def WALL_KICK_TIME : ℝ := 0.18
noncomputable def WALL_KICK_LOCKOUT : ℝ := 0.25
noncomputable def WALL_KICK_SPEED_X : ℝ := 260.0
noncomputable def WALL_KICK_SPEED_Y : ℝ := 180.0

/-- The `MovementInput` dataclass (player_movement.py, lines 31-38). -/
structure MovementInput where
  x : ℝ
  y : ℝ
  jump_pressed : Bool
  jump_held : Bool
  jump_released : Bool
  dash_pressed : Bool

/-- Timer decay and facing update (`PlayerMovement.update`, lines 84-102):
clamped countdown of the dash cooldown and the two wall-kick timers, the
coyote refresh/decay, the jump-buffer refresh/decay, and the facing flip.
The source's statements run in sequence but each reads only fields no
earlier statement writes, so they are gathered into one record update. -/
noncomputable def stepTimersFacing (inp : MovementInput) (dt : ℝ)
    (s : MState ℝ) : MState ℝ :=
  { s with
    dash_cd :=
      if 0 < s.dash_cd then max 0 (s.dash_cd - dt) else s.dash_cd
    wall_kick_timer :=
      if 0 < s.wall_kick_timer then max 0 (s.wall_kick_timer - dt)
      else s.wall_kick_timer
    wall_kick_lockout :=
      if 0 < s.wall_kick_lockout then max 0 (s.wall_kick_lockout - dt)
      else s.wall_kick_lockout
    coyote_timer :=
      if s.on_ground then COYOTE_TIME else max 0 (s.coyote_timer - dt)
    jump_buffer_timer :=
      if inp.jump_pressed then JUMP_BUFFER_TIME
      else max 0 (s.jump_buffer_timer - dt)
    facing :=
      if 0.01 < |inp.x| then (if 0 < inp.x then 1 else -1) else s.facing }

/-- The dash-start guard (`PlayerMovement.update`, line 105). -/
noncomputable def dashStarts (inp : MovementInput) (s : MState ℝ) : Bool :=
  inp.dash_pressed && !s.is_dashing && decide (s.dash_cd ≤ 0)
    && !s.is_wall_crouch

/-- The dash direction capture (`PlayerMovement.update`, lines 110-129):
8-way direction from the input, diagonals scaled by 0.707, the facing
direction as fallback, times the dash speed. -/
noncomputable def dashVec (inp : MovementInput) (s : MState ℝ) : ℝ × ℝ :=
  let ddx0 : ℝ := if inp.x < 0 then -1 else if 0 < inp.x then 1 else 0
  let ddy0 : ℝ := if inp.y < 0 then -1 else if 0 < inp.y then 1 else 0
  let ddx1 : ℝ := if ddx0 ≠ 0 ∧ ddy0 ≠ 0 then ddx0 * 0.707 else ddx0
  let ddy1 : ℝ := if ddx0 ≠ 0 ∧ ddy0 ≠ 0 then ddy0 * 0.707 else ddy0
  let ddx2 : ℝ := if ddx1 = 0 ∧ ddy1 = 0 then (s.facing : ℝ) else ddx1
  (ddx2 * DASH_SPEED, ddy1 * DASH_SPEED)

/-- Dash start (`PlayerMovement.update`, lines 105-131): capture the dash
direction, set the dash mode, both dash timers, and the velocity. -/
noncomputable def stepDashStart (inp : MovementInput) (s : MState ℝ) :
    MState ℝ :=
  if dashStarts inp s then
    { s with is_dashing := true, dash_timer := DASH_TIME,
             dash_cd := DASH_COOLDOWN,
             dash_dx := (dashVec inp s).1, dash_dy := (dashVec inp s).2,
             vx := (dashVec inp s).1, vy := (dashVec inp s).2 }
  else s

/-- The wall-kick guard (`PlayerMovement.update`, line 134). -/
noncomputable def wallKicks (inp : MovementInput) (s : MState ℝ) : Bool :=
  s.is_wall_crouch && inp.jump_pressed && decide (s.wall_kick_lockout ≤ 0)

/-- Wall kick (`PlayerMovement.update`, lines 134-141): leave wall-crouch,
start the kick and lockout timers, and apply the kick impulse away from the
stick side (or away from facing when no stick side is recorded). -/
noncomputable def kickDir (s : MState ℝ) : ℝ :=
  if s.stick_side ≠ 0 then ((-s.stick_side : ℤ) : ℝ) else ((-s.facing : ℤ) : ℝ)

noncomputable def stepWallKick (inp : MovementInput) (s : MState ℝ) :
    MState ℝ :=
  if wallKicks inp s then
    { s with is_wall_crouch := false, wall_kick_timer := WALL_KICK_TIME,
             wall_kick_lockout := WALL_KICK_LOCKOUT,
             vx := kickDir s * WALL_KICK_SPEED_X, vy := -WALL_KICK_SPEED_Y,
             stick_side := 0 }
  else s

/-- `PlayerMovement._start_jump` (player_movement.py, lines 75-80). -/
noncomputable def startJump (s : MState ℝ) : MState ℝ :=
  { s with vy := -JUMP_SPEED, jump_hold_timer := JUMP_HOLD_TIME,
           jump_buffer_timer := 0, coyote_timer := 0 }

/-- The buffered-jump guard before integration (`PlayerMovement.update`,
line 144): buffer and coyote both live, and not wall-crouched. -/
noncomputable def jumpCondBuffered (s : MState ℝ) : Bool :=
  decide (0 < s.jump_buffer_timer) && decide (0 < s.coyote_timer)
    && !s.is_wall_crouch

noncomputable def stepBufferedJump (s : MState ℝ) : MState ℝ :=
  if jumpCondBuffered s then startJump s else s

/-- The wall-crouch slide velocity (`PlayerMovement.update`, lines
157-162): full counter-slide, full slide, or 0.4 × slide when vertical
input is neutral. -/
noncomputable def slideVy (inp : MovementInput) : ℝ :=
  if inp.y < 0 then -WALL_SLIDE_SPEED
  else if 0 < inp.y then WALL_SLIDE_SPEED else WALL_SLIDE_SPEED * 0.4

/-- The jump-hold guard (`PlayerMovement.update`, line 173). -/
noncomputable def holdActiveB (inp : MovementInput) (s : MState ℝ) : Bool :=
  decide (0 < s.jump_hold_timer) && inp.jump_held

/-- Horizontal input acceleration (`PlayerMovement.update`, line 165). -/
noncomputable def normalVx (inp : MovementInput) (dt : ℝ) (s : MState ℝ) :
    ℝ :=
  s.vx + inp.x * ACCEL * dt

/-- Vertical velocity before drag in the normal branch
(`PlayerMovement.update`, lines 166-178): input acceleration, airborne sink
or grounded clip to ≤ 0, then jump hold (priority) or release cut. -/
noncomputable def normalVy (inp : MovementInput) (dt : ℝ) (s : MState ℝ) :
    ℝ :=
  let vy1 := s.vy + inp.y * ACCEL * dt
  let vy2 := if s.on_ground then min vy1 0 else vy1 + SINK_ACCEL * dt
  if holdActiveB inp s then vy2 - JUMP_HOLD_ACCEL * dt
  else if inp.jump_released && decide (vy2 < 0) then vy2 * JUMP_CUT_MULT
  else vy2

/-- Linear drag (`PlayerMovement.update`, lines 180-181):
`v -= DRAG * v * dt`. -/
noncomputable def dragStep (v dt : ℝ) : ℝ := v - DRAG * v * dt

/-- The vector speed clamp (`PlayerMovement.update`, lines 183-187):
when `hypot vx vy` exceeds the max speed, scale both components by
`MAX_SPEED / speed`. -/
noncomputable def clampSpeed (vx vy : ℝ) : ℝ × ℝ :=
  if MAX_SPEED < Real.sqrt (vx ^ 2 + vy ^ 2) then
    (vx * (MAX_SPEED / Real.sqrt (vx ^ 2 + vy ^ 2)),
     vy * (MAX_SPEED / Real.sqrt (vx ^ 2 + vy ^ 2)))
  else (vx, vy)

/-- Velocity integration and mode bookkeeping (`PlayerMovement.update`,
lines 148-190): the dash branch (fixed dash velocity, unclamped duration
countdown, dash end), the wall-crouch branch (zero `vx`, fixed slide
velocity from vertical input), or the normal branch (input acceleration,
airborne sink or grounded clip, jump hold/cut, linear drag, vector speed
clamp).  Returns the updated state and the displacement `(move_x, move_y)`
handed to the resolver. -/
noncomputable def integrate (inp : MovementInput) (dt : ℝ) (s : MState ℝ) :
    MState ℝ × ℝ × ℝ :=
  if s.is_dashing then
    (if s.dash_timer - dt ≤ 0 then
       { s with dash_timer := s.dash_timer - dt, is_dashing := false }
     else { s with dash_timer := s.dash_timer - dt },
     s.dash_dx * dt, s.dash_dy * dt)
  else if s.is_wall_crouch then
    ({ s with vx := 0, vy := slideVy inp }, 0, slideVy inp * dt)
  else
    let v := clampSpeed (dragStep (normalVx inp dt s) dt)
      (dragStep (normalVy inp dt s) dt)
    let holdTimer := if holdActiveB inp s then max 0 (s.jump_hold_timer - dt)
      else s.jump_hold_timer
    ({ s with vx := v.1, vy := v.2, jump_hold_timer := holdTimer },
      v.1 * dt, v.2 * dt)

/-- The auto-stick guard (`PlayerMovement.update`, lines 196-197). -/
noncomputable def stickCond (s : MState ℝ) : Bool :=
  !s.on_ground && !s.is_dashing && !s.is_wall_crouch
    && decide (s.wall_kick_lockout ≤ 0) && (s.wall_left || s.wall_right)

/-- Auto-stick to a touched wall when airborne (`PlayerMovement.update`,
lines 196-202): enter wall-crouch, record the stick side, face away from
the wall, zero the velocity. -/
noncomputable def stepStick (s : MState ℝ) : MState ℝ :=
  if stickCond s then
    { s with is_wall_crouch := true,
             stick_side := if s.wall_left then -1 else 1,
             facing := -(if s.wall_left then (-1 : ℤ) else 1),
             vx := 0, vy := 0 }
  else s

/-- Detach from the wall when no wall contact remains
(`PlayerMovement.update`, lines 204-206). -/
def stepDetach {K : Type} (s : MState K) : MState K :=
  if s.is_wall_crouch && !s.wall_left && !s.wall_right then
    { s with is_wall_crouch := false, stick_side := 0 }
  else s

/-- The landing buffered-jump guard (`PlayerMovement.update`, line 209):
grounded with a live jump buffer — coyote is not consulted here. -/
noncomputable def jumpCondLanding (s : MState ℝ) : Bool :=
  s.on_ground && decide (0 < s.jump_buffer_timer)

noncomputable def stepLandingJump (s : MState ℝ) : MState ℝ :=
  if jumpCondLanding s then startJump s else s

/-- The pre-collision part of `PlayerMovement.update` (lines 84-145):
timers/facing, dash start, wall kick, buffered jump. -/
noncomputable def preMove (inp : MovementInput) (dt : ℝ) (s : MState ℝ) :
    MState ℝ :=
  stepBufferedJump (stepWallKick inp (stepDashStart inp
    (stepTimersFacing inp dt s)))

/-- `PlayerMovement.update` (player_movement.py, lines 82-210), with the
injected `resolve_axis` callback instantiated with `Player._resolve_axis`
(Aqua.py), the repository's only resolver implementation. -/
noncomputable def update (solids : List Rect) (inp : MovementInput)
    (dt : ℝ) (s : MState ℝ) : MState ℝ :=
  let m := integrate inp dt (preMove inp dt s)
  stepLandingJump (stepDetach (stepStick
    (resolveAxis solids m.1 m.2.1 m.2.2)))

/-- Whether `_start_jump` runs during `update` (at the pre-collision site,
line 144-145, or at the landing site, line 209-210). -/
noncomputable def jumpStartsIn (solids : List Rect) (inp : MovementInput)
    (dt : ℝ) (s : MState ℝ) : Bool :=
  let s3 := stepWallKick inp (stepDashStart inp (stepTimersFacing inp dt s))
  let m := integrate inp dt (stepBufferedJump s3)
  jumpCondBuffered s3 ||
    jumpCondLanding (stepDetach (stepStick
      (resolveAxis solids m.1 m.2.1 m.2.2)))

/-! ## Animation clip frame advance (player_animator.py) -/

/-- The mutable part of an `AnimationClip` (player_animator.py): elapsed
time within the clip, current frame index, finished flag. -/
structure ClipState where
  elapsed : ℚ
  index : ℕ
  finished : Bool
  deriving DecidableEq

/-- `frame_duration = 1.0 / fps` (player_animator.py, line 39). -/
def frame_duration (fps : ℚ) : ℚ := 1 / fps

/-- The `while self.elapsed >= self.frame_duration` loop of
`AnimationClip.update` (player_animator.py, lines 51-59), with one unit of
fuel per iteration: subtract a frame duration and advance the index
(looping back to 0, or freezing finished — the source `break`s there). -/
def clipLoopFuel (frames : ℕ) (looping : Bool) (d : ℚ) :
    ℕ → ℚ → ℕ → Bool → ClipState
  | 0, e, i, f => ⟨e, i, f⟩
  | fuel + 1, e, i, f =>
    if d ≤ e then
      if i < frames - 1 then clipLoopFuel frames looping d fuel (e - d) (i + 1) f
      else if looping then clipLoopFuel frames looping d fuel (e - d) 0 f
      else ⟨e - d, i, true⟩
    else ⟨e, i, f⟩

/-- `AnimationClip.update` (player_animator.py, lines 47-59): return early
when a non-looping clip is finished, otherwise accumulate `dt` and run the
frame-advance loop. -/
def clipUpdate (frames : ℕ) (looping : Bool) (d dtq : ℚ) (s : ClipState) :
    ClipState :=
  if s.finished && !looping then s
  else clipLoopFuel frames looping d (⌊(s.elapsed + dtq) / d⌋).toNat
    (s.elapsed + dtq) s.index s.finished

/-! ## Level loading and spawn selection (Aqua.py) -/

def WIDTH : ℤ := 1280

def HEIGHT : ℤ := 720

def TILE_SIZE : ℤ := 32

/-- The built-in default arena map returned by `load_level` when the level
file is missing (Aqua.py, lines 34-41). -/
def defaultLevel : List (List Char) :=
  ["########################".toList,
   "#......................#".toList,
   "#......................#".toList,
   "#..........P...........#".toList,
   "#......................#".toList,
   "########################".toList]

/-- `load_level` (Aqua.py, lines 30-43).  The file-system probe
(`os.path.exists` / `open`) is modelled by the boolean `file_found` and the
lines `contents` the file would yield; a missing file falls back to the
built-in default arena. -/
def load_level (file_found : Bool) (contents : List (List Char)) :
    List (List Char) :=
  if file_found then contents else defaultLevel

/-- Index of the first `'P'` in a row (the inner `enumerate` loop of
`find_spawn`). -/
def findP : List Char → Option ℕ
  | [] => none
  | ch :: rest => if ch = 'P' then some 0 else (findP rest).map (· + 1)

/-- The row scan of `find_spawn`, carrying the absolute row index `r`. -/
def find_spawn_rows : List (List Char) → ℤ → ℤ × ℤ
  | [], _ => (WIDTH / 2, HEIGHT / 2)
  | row :: rest, r =>
    match findP row with
    | some c => ((c : ℤ) * TILE_SIZE, r * TILE_SIZE)
    | none => find_spawn_rows rest (r + 1)

/-- `find_spawn` (Aqua.py, lines 55-60): the grid position of the first
`'P'` in row-major scan order, or the window centre if none occurs. -/
def find_spawn (m : List (List Char)) : ℤ × ℤ := find_spawn_rows m 0

/-- `PlayerMovement.__init__` (player_movement.py, lines 44-73) combined
with the position and box size that `Player.__init__` (Aqua.py) sets up. -/
noncomputable def initState (x y : ℝ) : MState ℝ :=
  { x := x, y := y, w := 64, h := 64, vx := 0, vy := 0,
    on_ground := false, wall_left := false, wall_right := false,
    facing := 1, is_wall_crouch := false, stick_side := 0,
    wall_kick_timer := 0, wall_kick_lockout := 0,
    is_dashing := false, dash_timer := 0, dash_cd := 0,
    dash_dx := 0, dash_dy := 0,
    coyote_timer := 0, jump_buffer_timer := 0, jump_hold_timer := 0 }

/-- An all-zero rational movement state (64×64 collision box at the
origin), the base state for concrete resolver evaluations. -/
def baseQ : MState ℚ :=
  { x := 0, y := 0, w := 64, h := 64, vx := 0, vy := 0,
    on_ground := false, wall_left := false, wall_right := false,
    facing := 1, is_wall_crouch := false, stick_side := 0,
    wall_kick_timer := 0, wall_kick_lockout := 0,
    is_dashing := false, dash_timer := 0, dash_cd := 0,
    dash_dx := 0, dash_dy := 0,
    coyote_timer := 0, jump_buffer_timer := 0, jump_hold_timer := 0 }

/-- The all-neutral input frame: no directional intent, no jump edge or
hold, no dash press. -/
noncomputable def inp0 : MovementInput := ⟨0, 0, false, false, false, false⟩

/-- A mid-dash state: dashing with dash-duration timer 1/10 s left and
jump-hold timer 1/20 s left, otherwise the initial state at the origin. -/
noncomputable def dashingState : MState ℝ :=
  { initState 0 0 with
    is_dashing := true
    dash_timer := 1/10
    jump_hold_timer := 1/20 }

/-- An input frame with a fresh jump press and no directional intent, no
hold, no release, no dash. -/
noncomputable def jumpInp : MovementInput := ⟨0, 0, true, false, false, false⟩

/-- A wall-crouch state clinging on the right (`stick_side = 1`) with no
wall-kick lockout, otherwise the initial state at the origin. -/
noncomputable def kickState : MState ℝ :=
  { initState 0 0 with
    is_wall_crouch := true
    stick_side := 1 }

/-- The full-rightward input frame: `x = 1`, `y = 0`, no jump edges, no
dash. -/
noncomputable def rightInp : MovementInput := ⟨1, 0, false, false, false, false⟩

/-- A free-fall flight regime: not dashing, not wall-crouched, airborne,
with an empty jump buffer and non-negative (downward or zero) vertical
velocity. -/
def airborneFree (s : MState ℝ) : Prop :=
  s.is_dashing = false ∧ s.is_wall_crouch = false ∧ s.on_ground = false ∧
  s.jump_buffer_timer = 0 ∧ 0 ≤ s.vy

/-- Number of active exclusive movement modes: dashing, wall-crouch, and
normal (defined as neither dashing nor wall-crouching). -/
def modeCount {K : Type} (s : MState K) : ℕ :=
  (if s.is_dashing then 1 else 0) + (if s.is_wall_crouch then 1 else 0) +
    (if !s.is_dashing && !s.is_wall_crouch then 1 else 0)

/-! ## General lemmas about the embedding -/

section ResolverLemmas

variable {K : Type} [LinearOrderedField K] [FloorRing K]

theorem resolveAxis_vx (solids : List Rect) (s : MState K) (mx my : K) :
    (resolveAxis solids s mx my).vx = s.vx := rfl

theorem resolveAxis_vy (solids : List Rect) (s : MState K) (mx my : K) :
    (resolveAxis solids s mx my).vy
      = if (resolveAxis solids s mx my).on_ground then 0 else s.vy := rfl

theorem resolveAxis_timers (solids : List Rect) (s : MState K) (mx my : K) :
    (resolveAxis solids s mx my).wall_kick_timer = s.wall_kick_timer ∧
    (resolveAxis solids s mx my).wall_kick_lockout = s.wall_kick_lockout ∧
    (resolveAxis solids s mx my).dash_timer = s.dash_timer ∧
    (resolveAxis solids s mx my).dash_cd = s.dash_cd ∧
    (resolveAxis solids s mx my).coyote_timer = s.coyote_timer ∧
    (resolveAxis solids s mx my).jump_buffer_timer = s.jump_buffer_timer ∧
    (resolveAxis solids s mx my).jump_hold_timer = s.jump_hold_timer :=
  ⟨rfl, rfl, rfl, rfl, rfl, rfl, rfl⟩

theorem resolveAxis_modes (solids : List Rect) (s : MState K) (mx my : K) :
    (resolveAxis solids s mx my).is_dashing = s.is_dashing ∧
    (resolveAxis solids s mx my).is_wall_crouch = s.is_wall_crouch ∧
    (resolveAxis solids s mx my).stick_side = s.stick_side ∧
    (resolveAxis solids s mx my).facing = s.facing ∧
    (resolveAxis solids s mx my).dash_dx = s.dash_dx ∧
    (resolveAxis solids s mx my).dash_dy = s.dash_dy :=
  ⟨rfl, rfl, rfl, rfl, rfl, rfl⟩

theorem probeX_eq (solids : List Rect) (r : Rect) :
    probeX solids r = (solids.any (touchL r), solids.any (touchR r)) := by
  suffices main : ∀ (l : List Rect) (b1 b2 : Bool),
      l.foldl (fun acc tile => (acc.1 || touchL r tile, acc.2 || touchR r tile))
          (b1, b2)
        = (b1 || l.any (touchL r), b2 || l.any (touchR r)) by
    rw [probeX, main, Bool.false_or, Bool.false_or]
  intro l
  induction l with
  | nil => intro b1 b2; simp
  | cons t ts ih =>
    intro b1 b2
    simp only [List.foldl_cons, List.any_cons]
    rw [ih, Bool.or_assoc, Bool.or_assoc]

theorem probeY_eq (solids : List Rect) (r : Rect) :
    probeY solids r = solids.any (touchB r) := by
  suffices main : ∀ (l : List Rect) (b : Bool),
      l.foldl (fun hf tile => hf || touchB r tile) b
        = (b || l.any (touchB r)) by
    rw [probeY, main, Bool.false_or]
  intro l
  induction l with
  | nil => intro b; simp
  | cons t ts ih =>
    intro b
    simp only [List.foldl_cons, List.any_cons]
    rw [ih, Bool.or_assoc]

end ResolverLemmas

/-- With `0 < d`, fuel `⌊e / d⌋.toNat` is enough for the loop to reach its
exit condition (elapsed below one frame duration, or the `break` on
finishing): the fuel embedding computes the source's unbounded loop. -/
theorem clipLoopFuel_exits (frames : ℕ) (looping : Bool) (d : ℚ)
    (hd : 0 < d) :
    ∀ (fuel : ℕ) (e : ℚ) (i : ℕ) (f : Bool), (⌊e / d⌋).toNat ≤ fuel →
      (clipLoopFuel frames looping d fuel e i f).finished = true ∨
        (clipLoopFuel frames looping d fuel e i f).elapsed < d := by
  intro fuel
  induction fuel with
  | zero =>
    intro e i f h
    right
    simp only [clipLoopFuel]
    have h0 : ⌊e / d⌋ ≤ 0 := by omega
    have h1 : e / d < 1 := by
      have h2 := Int.lt_floor_add_one (e / d)
      have h3 : (⌊e / d⌋ : ℚ) ≤ 0 := by exact_mod_cast h0
      linarith
    exact (div_lt_one hd).mp h1
  | succ fuel ih =>
    intro e i f h
    by_cases he : d ≤ e
    · have hfl : (⌊(e - d) / d⌋).toNat ≤ fuel := by
        have hsub : ⌊(e - d) / d⌋ = ⌊e / d⌋ - 1 := by
          rw [sub_div, div_self (ne_of_gt hd), Int.floor_sub_one]
        have h1 : 1 ≤ ⌊e / d⌋ := by
          have h2 : (1 : ℚ) ≤ e / d := (one_le_div hd).mpr he
          exact_mod_cast Int.le_floor.mpr (by exact_mod_cast h2)
        omega
      simp only [clipLoopFuel, if_pos he]
      by_cases hi : i < frames - 1
      · simpa [hi] using ih (e - d) (i + 1) f hfl
      · by_cases hl : looping = true
        · simpa [hi, hl] using ih (e - d) 0 f hfl
        · left
          simp [hi, hl]
    · right
      simp only [clipLoopFuel, if_neg he]
      exact lt_of_not_le he

/-! ## Claim C1 -/

/-- C1, amended: the axis-resolution step never mutates `vx`, and leaves
`vy` unchanged whenever it does not report ground contact; but contrary to
the claim, on landing the resolver itself zeroes `vy` (it does not merely
report the contact boolean for the caller). -/
theorem C1_resolver_velocity {K : Type} [LinearOrderedField K] [FloorRing K]
    (solids : List Rect) (s : MState K) (mx my : K) :
    (resolveAxis solids s mx my).vx = s.vx ∧
    ((resolveAxis solids s mx my).on_ground = false →
      (resolveAxis solids s mx my).vy = s.vy) ∧
    ((resolveAxis solids s mx my).on_ground = true →
      (resolveAxis solids s mx my).vy = 0) := by
  refine ⟨rfl, ?_, ?_⟩ <;>
    · intro h
      simp only [resolveAxis] at h ⊢
      simp [h]

/-- C1, counterexample to the claim as stated: a stationary character
resting exactly on a tile below keeps `on_ground` reported and has its
vertical velocity overwritten to `0` by the resolver itself — here `vy`
changes from `5` to `0` across the call with zero displacement. -/
theorem C1_counterexample :
    ¬((resolveAxis [⟨0, 64, 32, 32⟩] { baseQ with vy := 5 } (0 : ℚ) 0).vy
        = ({ baseQ with vy := 5 } : MState ℚ).vy) := by
  have hg : groundFlag [⟨0, 64, 32, 32⟩] ({ baseQ with vy := 5 } : MState ℚ)
      0 0 = true := by
    norm_num [groundFlag, probeY_eq, resolvedX, toInt, touchB, baseQ]
  simp only [resolveAxis, hg, if_true]
  norm_num [baseQ]

/-- C1 witness: the amended theorem applied at a concrete input with a
hypothesis discharged: with no tiles, ground is not reported and `vy`
survives. -/
theorem C1_witness :
    (resolveAxis [] { baseQ with vy := 5 } (0 : ℚ) 0).vy
      = ({ baseQ with vy := 5 } : MState ℚ).vy :=
  (C1_resolver_velocity [] { baseQ with vy := 5 } 0 0).2.1
    (by norm_num [resolveAxis, groundFlag, probeY_eq])

/-! ## Claim C6 -/

/-- C6: with zero requested displacement on an axis but a solid tile exactly
adjacent on that axis (edge coincides on the truncated collision rect and
the perpendicular ranges overlap), the resolver still reports the contact
on that axis — `wall_right` / `wall_left` for x, `on_ground` for a tile
below — without changing the position on that axis. -/
theorem C6_touch_probe {K : Type} [LinearOrderedField K] [FloorRing K]
    (solids : List Rect) (s : MState K) (moveX moveY : K) (tile : Rect)
    (ht : tile ∈ solids) :
    (moveX = 0 → touchR ⟨toInt s.x, toInt s.y, s.w, s.h⟩ tile = true →
      (resolveAxis solids s moveX moveY).wall_right = true ∧
      (resolveAxis solids s moveX moveY).x = s.x) ∧
    (moveX = 0 → touchL ⟨toInt s.x, toInt s.y, s.w, s.h⟩ tile = true →
      (resolveAxis solids s moveX moveY).wall_left = true ∧
      (resolveAxis solids s moveX moveY).x = s.x) ∧
    (moveY = 0 →
      touchB ⟨toInt (resolvedX solids s moveX), toInt s.y, s.w, s.h⟩ tile
          = true →
      (resolveAxis solids s moveX moveY).on_ground = true ∧
      (resolveAxis solids s moveX moveY).y = s.y) := by
  refine ⟨?_, ?_, ?_⟩
  · rintro rfl htc
    constructor
    · simp only [resolveAxis, wallFlags, add_zero]
      rw [if_neg (by simp), probeX_eq]
      simp only [List.any_eq_true]
      exact ⟨tile, ht, htc⟩
    · simp [resolveAxis, resolvedX]
  · rintro rfl htc
    constructor
    · simp only [resolveAxis, wallFlags, add_zero]
      rw [if_neg (by simp), probeX_eq]
      simp only [List.any_eq_true]
      exact ⟨tile, ht, htc⟩
    · simp [resolveAxis, resolvedX]
  · rintro rfl htc
    constructor
    · simp only [resolveAxis, groundFlag, add_zero]
      rw [if_neg (by simp), probeY_eq]
      simp only [List.any_eq_true]
      exact ⟨tile, ht, htc⟩
    · simp [resolveAxis, resolvedY]

/-- C6 witness: a stationary 64×64 character at the origin, with a tile
flush against its right edge and another flush under its feet, has both
contacts reported and keeps its exact position. -/
theorem C6_witness :
    (resolveAxis [⟨64, 0, 32, 32⟩, ⟨0, 64, 32, 32⟩] baseQ (0 : ℚ) 0).wall_right
        = true ∧
    (resolveAxis [⟨64, 0, 32, 32⟩, ⟨0, 64, 32, 32⟩] baseQ (0 : ℚ) 0).on_ground
        = true ∧
    (resolveAxis [⟨64, 0, 32, 32⟩, ⟨0, 64, 32, 32⟩] baseQ (0 : ℚ) 0).x
        = baseQ.x ∧
    (resolveAxis [⟨64, 0, 32, 32⟩, ⟨0, 64, 32, 32⟩] baseQ (0 : ℚ) 0).y
        = baseQ.y := by
  have h1 := (C6_touch_probe [⟨64, 0, 32, 32⟩, ⟨0, 64, 32, 32⟩] baseQ
    (0 : ℚ) 0 ⟨64, 0, 32, 32⟩ (by decide)).1 rfl
    (by norm_num [touchR, toInt, baseQ])
  have h2 := (C6_touch_probe [⟨64, 0, 32, 32⟩, ⟨0, 64, 32, 32⟩] baseQ
    (0 : ℚ) 0 ⟨0, 64, 32, 32⟩ (by decide)).2.2 rfl
    (by norm_num [touchB, toInt, resolvedX, baseQ])
  exact ⟨h1.1, h2.1, h1.2, h2.2⟩

/-! ## Claim C10 -/

/-- C10: a nonzero requested displacement on an axis leaves the character's
coordinate on that axis integral afterwards (the tentative float position
is truncated toward zero before the sweep — with no tiles the result is
exactly `int(pos + move)`); a zero displacement leaves the fractional
coordinate exactly unchanged. -/
theorem C10_position_truncation {K : Type} [LinearOrderedField K]
    [FloorRing K] (solids : List Rect) (s : MState K) (mx my : K) :
    (mx ≠ 0 → ∃ n : ℤ, (resolveAxis solids s mx my).x = (n : K)) ∧
    (mx = 0 → (resolveAxis solids s mx my).x = s.x) ∧
    (my ≠ 0 → ∃ n : ℤ, (resolveAxis solids s mx my).y = (n : K)) ∧
    (my = 0 → (resolveAxis solids s mx my).y = s.y) ∧
    (mx ≠ 0 → (resolveAxis [] s mx my).x = ((toInt (s.x + mx) : ℤ) : K)) ∧
    (my ≠ 0 → (resolveAxis [] s mx my).y = ((toInt (s.y + my) : ℤ) : K)) := by
  refine ⟨?_, ?_, ?_, ?_, ?_, ?_⟩
  · intro h
    refine ⟨(sweepX mx solids ⟨toInt (s.x + mx), toInt s.y, s.w, s.h⟩).1.x, ?_⟩
    simp [resolveAxis, resolvedX, h]
  · rintro rfl
    simp [resolveAxis, resolvedX]
  · intro h
    refine ⟨(sweepY my solids
      ⟨toInt (resolvedX solids s mx), toInt (s.y + my), s.w, s.h⟩).1.y, ?_⟩
    simp [resolveAxis, resolvedY, h]
  · rintro rfl
    simp [resolveAxis, resolvedY]
  · intro h
    simp [resolveAxis, resolvedX, h, sweepX]
  · intro h
    simp [resolveAxis, resolvedY, h, sweepY]

/-- C10 witness: pushed by a fractional displacement with no tiles around,
the character's coordinates are truncated toward zero; with zero
displacement the fractional coordinate survives exactly. -/
theorem C10_witness :
    (resolveAxis [] { baseQ with x := 1/2, y := -1/2 } (1 : ℚ) (-1)).x = 1 ∧
    (resolveAxis [] { baseQ with x := 1/2, y := -1/2 } (1 : ℚ) (-1)).y = -1 ∧
    (resolveAxis [] { baseQ with x := 1/2, y := -1/2 } (0 : ℚ) 0).x = 1/2 := by
  refine ⟨?_, ?_, ?_⟩
  · have h := (C10_position_truncation (K := ℚ) []
      { baseQ with x := 1/2, y := -1/2 } 1 (-1)).2.2.2.2.1 (by norm_num)
    rw [h]
    norm_num [toInt]
  · have h := (C10_position_truncation (K := ℚ) []
      { baseQ with x := 1/2, y := -1/2 } 1 (-1)).2.2.2.2.2 (by norm_num)
    rw [h]
    norm_num [toInt]
    rw [Int.ceil_neg]
    norm_num
  · exact (C10_position_truncation (K := ℚ) []
      { baseQ with x := 1/2, y := -1/2 } 0 0).2.1 rfl


/-! ## Claim C9 -/

theorem findP_eq_none (row : List Char) : findP row = none ↔ 'P' ∉ row := by
  induction row with
  | nil => simp [findP]
  | cons ch rest ih =>
    by_cases h : ch = 'P'
    · subst h
      simp [findP]
    · simp only [findP, if_neg h, Option.map_eq_none', ih, List.mem_cons]
      constructor
      · intro hn hor
        rcases hor with h1 | h2
        · exact h h1.symm
        · exact hn h2
      · intro hn hmem
        exact hn (Or.inr hmem)

theorem findP_some (row : List Char) (c : ℕ) (hc : row.get? c = some 'P')
    (hmin : ∀ c' < c, row.get? c' ≠ some 'P') : findP row = some c := by
  induction row generalizing c with
  | nil => simp at hc
  | cons ch rest ih =>
    by_cases h : ch = 'P'
    · subst h
      have hc0 : c = 0 := by
        by_contra hne
        exact hmin 0 (Nat.pos_of_ne_zero hne) rfl
      subst hc0
      simp [findP]
    · cases c with
      | zero =>
        simp only [List.get?_cons_zero, Option.some.injEq] at hc
        exact absurd hc h
      | succ c' =>
        have hrec := ih c' (by simpa using hc)
          (fun c'' hlt heq => hmin (c'' + 1) (by omega) (by simpa using heq))
        simp [findP, h, hrec]

theorem find_spawn_rows_none : ∀ (m : List (List Char)) (k : ℤ),
    (∀ row ∈ m, 'P' ∉ row) →
    find_spawn_rows m k = (WIDTH / 2, HEIGHT / 2) := by
  intro m
  induction m with
  | nil => intro k _; rfl
  | cons row rest ih =>
    intro k h
    have h0 : findP row = none := (findP_eq_none row).mpr (h row (by simp))
    simp only [find_spawn_rows, h0]
    exact ih (k + 1) (fun r hr => h r (by simp [hr]))

theorem find_spawn_rows_found : ∀ (m : List (List Char)) (k : ℤ) (r : ℕ)
    (row : List Char) (c : ℕ),
    m.get? r = some row →
    (∀ r' < r, ∀ row', m.get? r' = some row' → 'P' ∉ row') →
    findP row = some c →
    find_spawn_rows m k = ((c : ℤ) * TILE_SIZE, (k + r) * TILE_SIZE) := by
  intro m
  induction m with
  | nil =>
    intro k r row c hr
    simp at hr
  | cons row0 rest ih =>
    intro k r row c hr hprev hf
    cases r with
    | zero =>
      simp only [List.get?_cons_zero, Option.some.injEq] at hr
      subst hr
      simp [find_spawn_rows, hf]
    | succ r' =>
      have h0 : findP row0 = none :=
        (findP_eq_none row0).mpr (hprev 0 (by omega) row0 (by simp))
      simp only [find_spawn_rows, h0]
      have hrec := ih (k + 1) r' row c (by simpa using hr)
        (fun r'' h'' row'' h3 => hprev (r'' + 1) (by omega) row''
          (by simpa using h3)) hf
      rw [hrec]
      have : (k + 1) + (r' : ℤ) = k + ((r' : ℕ) + 1 : ℕ) := by push_cast; ring
      rw [this]

/-- C9: a missing level file makes `load_level` return the built-in 6-row
default arena map rather than failing; `find_spawn` returns
`(column * tile_size, row * tile_size)` of the first `'P'` in row-major
scan order, and the window-centre default `(WIDTH / 2, HEIGHT / 2)
= (640, 360)` when no `'P'` occurs. -/
theorem C9_level_loading :
    (∀ contents, load_level false contents = defaultLevel) ∧
    defaultLevel.length = 6 ∧
    (∀ (m : List (List Char)) (r c : ℕ) (row : List Char),
      m.get? r = some row →
      (∀ r' < r, ∀ row', m.get? r' = some row' → 'P' ∉ row') →
      row.get? c = some 'P' →
      (∀ c' < c, row.get? c' ≠ some 'P') →
      find_spawn m = ((c : ℤ) * TILE_SIZE, (r : ℤ) * TILE_SIZE)) ∧
    (∀ m : List (List Char), (∀ row ∈ m, 'P' ∉ row) →
      find_spawn m = (WIDTH / 2, HEIGHT / 2)) ∧
    WIDTH / 2 = (640 : ℤ) ∧ HEIGHT / 2 = (360 : ℤ) := by
  refine ⟨fun contents => rfl, rfl, ?_, ?_, rfl, rfl⟩
  · intro m r c row hr hprev hc hmin
    have h := find_spawn_rows_found m 0 r row c hr hprev
      (findP_some row c hc hmin)
    rw [find_spawn, h, zero_add]
  · intro m hm
    exact find_spawn_rows_none m 0 hm

/-- C9 witness: on the built-in default arena the spawn is the `'P'` at row
3, column 11, i.e. world position `(352, 96)`; a P-less map falls back to
the window centre `(640, 360)`; and a missing file yields the default. -/
theorem C9_witness :
    load_level false [] = defaultLevel ∧
    find_spawn defaultLevel = (352, 96) ∧
    find_spawn [['.', '#']] = (640, 360) := by
  refine ⟨C9_level_loading.1 [], ?_, ?_⟩
  · have h := C9_level_loading.2.2.1 defaultLevel 3 11
      "#..........P...........#".toList
      (by decide)
      (by
        intro r' hr' row' hrow
        interval_cases r' <;>
          · simp only [defaultLevel] at hrow
            simp only [List.get?_cons_zero, List.get?_cons_succ,
              Option.some.injEq] at hrow
            subst hrow
            decide)
      (by decide) (by decide)
    rw [h]
    decide
  · have h := C9_level_loading.2.2.2.1 [['.', '#']] (by decide)
    rw [h]
    decide

/-! ## Claim C8 -/

theorem clipRun (k : ℕ) : ∀ (i : ℕ), i < 4 → ∀ (e : ℚ), 0 ≤ e → e < 1/10 →
    clipLoopFuel 4 true (1/10) k (e + (k : ℚ) * (1/10)) i false
      = ⟨e, (i + k) % 4, false⟩ := by
  induction k with
  | zero =>
    intro i hi e he0 he
    simp only [clipLoopFuel, Nat.cast_zero, zero_mul, add_zero, Nat.add_zero]
    rw [Nat.mod_eq_of_lt hi]
  | succ k ih =>
    intro i hi e he0 he
    have hk : (0:ℚ) ≤ (k:ℚ) := Nat.cast_nonneg k
    have hd : (1:ℚ)/10 ≤ e + ((k+1 : ℕ) : ℚ) * (1/10) := by
      push_cast
      linarith
    have harith : e + ((k+1 : ℕ) : ℚ) * (1/10) - 1/10 = e + (k:ℚ) * (1/10) := by
      push_cast
      ring
    by_cases hi3 : i < 3
    · have hstep : clipLoopFuel 4 true (1/10) (k+1)
          (e + ((k+1 : ℕ) : ℚ) * (1/10)) i false
          = clipLoopFuel 4 true (1/10) k (e + (k:ℚ) * (1/10)) (i+1) false := by
        simp only [clipLoopFuel, if_pos hd]
        rw [if_pos (show i < 4 - 1 by omega), harith]
      rw [hstep, ih (i+1) (by omega) e he0 he]
      congr 1
      omega
    · have hi4 : i = 3 := by omega
      subst hi4
      have hstep : clipLoopFuel 4 true (1/10) (k+1)
          (e + ((k+1 : ℕ) : ℚ) * (1/10)) 3 false
          = clipLoopFuel 4 true (1/10) k (e + (k:ℚ) * (1/10)) 0 false := by
        simp only [clipLoopFuel, if_pos hd]
        rw [if_neg (show ¬(3 < 4 - 1) by omega), harith]
        simp
      rw [hstep, ih 0 (by omega) e he0 he]
      congr 1
      omega

theorem clipCall (i : ℕ) (hi : i < 4) (e : ℚ) (he0 : 0 ≤ e)
    (he : e < frame_duration 10) :
    clipUpdate 4 true (frame_duration 10) 1 ⟨e, i, false⟩
      = ⟨e, (i + 10) % 4, false⟩ := by
  have hfd : frame_duration 10 = 1/10 := rfl
  have he' : e < 1/10 := by rw [hfd] at he; exact he
  simp only [clipUpdate, Bool.false_and, Bool.false_eq_true, if_false, hfd]
  have hfuel : (⌊(e + 1) / (1/10 : ℚ)⌋).toNat = 10 := by
    have h1 : ⌊(e + 1) / (1/10 : ℚ)⌋ = 10 := by
      rw [div_div_eq_mul_div, div_one, Int.floor_eq_iff]
      constructor
      · push_cast
        linarith
      · push_cast
        linarith
    rw [h1]
    rfl
  rw [hfuel]
  have he1 : e + 1 = e + ((10:ℕ) : ℚ) * (1/10) := by
    push_cast
    ring
  rw [he1]
  exact clipRun 10 i hi e he0 he'

/-- C8: for the looping clip with `fps = 10` and 4 frames, each update call
with `dt = 1.0` advances the frame index from `i` to `(i + 10) % 4` (the
elapsed remainder is untouched), for every starting index `i < 4`, and any
number of repeated calls from a freshly reset clip visits
`(i + 10 * n) % 4`. -/
theorem C8_looping_clip :
    (∀ (i : ℕ), i < 4 → ∀ (e : ℚ), 0 ≤ e → e < frame_duration 10 →
      clipUpdate 4 true (frame_duration 10) 1 ⟨e, i, false⟩
        = ⟨e, (i + 10) % 4, false⟩) ∧
    (∀ (n i : ℕ), i < 4 →
      (clipUpdate 4 true (frame_duration 10) 1)^[n] ⟨0, i, false⟩
        = ⟨0, (i + 10 * n) % 4, false⟩) := by
  constructor
  · exact clipCall
  · intro n
    induction n with
    | zero =>
      intro i hi
      simp [Nat.mod_eq_of_lt hi]
    | succ n ih =>
      intro i hi
      rw [Function.iterate_succ_apply]
      rw [clipCall i hi 0 le_rfl (by norm_num [frame_duration])]
      rw [ih ((i + 10) % 4) (Nat.mod_lt _ (by norm_num))]
      congr 1
      omega

/-- C8 witness: three successive 1-second updates starting at frame 2 land
on frame `(2 + 30) % 4 = 0`, and one update from frame 1 with a fractional
elapsed remainder keeps the remainder and lands on `(1 + 10) % 4 = 3`. -/
theorem C8_witness :
    (clipUpdate 4 true (frame_duration 10) 1)^[3] ⟨0, 2, false⟩
        = ⟨0, 0, false⟩ ∧
    clipUpdate 4 true (frame_duration 10) 1 ⟨1/20, 1, false⟩
        = ⟨1/20, 3, false⟩ := by
  constructor
  · have h := C8_looping_clip.2 3 2 (by norm_num)
    rw [h]
  · have h := C8_looping_clip.1 1 (by norm_num) (1/20) (by norm_num)
      (by norm_num [frame_duration])
    rw [h]

/-! ## Phase lemmas for `PlayerMovement.update` -/

section PhaseLemmas

variable (inp : MovementInput) (dt : ℝ) (s : MState ℝ)

@[simp] theorem stepTimersFacing_x : (stepTimersFacing inp dt s).x = s.x := rfl

@[simp] theorem stepTimersFacing_y : (stepTimersFacing inp dt s).y = s.y := rfl

@[simp] theorem stepTimersFacing_vx :
    (stepTimersFacing inp dt s).vx = s.vx := rfl

@[simp] theorem stepTimersFacing_vy :
    (stepTimersFacing inp dt s).vy = s.vy := rfl

@[simp] theorem stepTimersFacing_on_ground :
    (stepTimersFacing inp dt s).on_ground = s.on_ground := rfl

@[simp] theorem stepTimersFacing_wall_left :
    (stepTimersFacing inp dt s).wall_left = s.wall_left := rfl

@[simp] theorem stepTimersFacing_wall_right :
    (stepTimersFacing inp dt s).wall_right = s.wall_right := rfl

@[simp] theorem stepTimersFacing_is_wall_crouch :
    (stepTimersFacing inp dt s).is_wall_crouch = s.is_wall_crouch := rfl

@[simp] theorem stepTimersFacing_stick_side :
    (stepTimersFacing inp dt s).stick_side = s.stick_side := rfl

@[simp] theorem stepTimersFacing_is_dashing :
    (stepTimersFacing inp dt s).is_dashing = s.is_dashing := rfl

@[simp] theorem stepTimersFacing_dash_timer :
    (stepTimersFacing inp dt s).dash_timer = s.dash_timer := rfl

@[simp] theorem stepTimersFacing_dash_dx :
    (stepTimersFacing inp dt s).dash_dx = s.dash_dx := rfl

@[simp] theorem stepTimersFacing_dash_dy :
    (stepTimersFacing inp dt s).dash_dy = s.dash_dy := rfl

@[simp] theorem stepTimersFacing_jump_hold_timer :
    (stepTimersFacing inp dt s).jump_hold_timer = s.jump_hold_timer := rfl

@[simp] theorem stepTimersFacing_dash_cd :
    (stepTimersFacing inp dt s).dash_cd
      = if 0 < s.dash_cd then max 0 (s.dash_cd - dt) else s.dash_cd := rfl

@[simp] theorem stepTimersFacing_wall_kick_timer :
    (stepTimersFacing inp dt s).wall_kick_timer
      = if 0 < s.wall_kick_timer then max 0 (s.wall_kick_timer - dt)
        else s.wall_kick_timer := rfl

@[simp] theorem stepTimersFacing_wall_kick_lockout :
    (stepTimersFacing inp dt s).wall_kick_lockout
      = if 0 < s.wall_kick_lockout then max 0 (s.wall_kick_lockout - dt)
        else s.wall_kick_lockout := rfl

@[simp] theorem stepTimersFacing_coyote_timer :
    (stepTimersFacing inp dt s).coyote_timer
      = if s.on_ground then COYOTE_TIME else max 0 (s.coyote_timer - dt) :=
  rfl

@[simp] theorem stepTimersFacing_jump_buffer_timer :
    (stepTimersFacing inp dt s).jump_buffer_timer
      = if inp.jump_pressed then JUMP_BUFFER_TIME
        else max 0 (s.jump_buffer_timer - dt) := rfl

theorem stepDashStart_not (h : dashStarts inp s = false) :
    stepDashStart inp s = s := by
  simp [stepDashStart, h]

theorem stepDashStart_fire (h : dashStarts inp s = true) :
    stepDashStart inp s
      = { s with is_dashing := true, dash_timer := DASH_TIME,
                 dash_cd := DASH_COOLDOWN,
                 dash_dx := (dashVec inp s).1, dash_dy := (dashVec inp s).2,
                 vx := (dashVec inp s).1, vy := (dashVec inp s).2 } := by
  simp [stepDashStart, h]

@[simp] theorem stepDashStart_x : (stepDashStart inp s).x = s.x := by
  unfold stepDashStart; split <;> rfl

@[simp] theorem stepDashStart_y : (stepDashStart inp s).y = s.y := by
  unfold stepDashStart; split <;> rfl

@[simp] theorem stepDashStart_on_ground :
    (stepDashStart inp s).on_ground = s.on_ground := by
  unfold stepDashStart; split <;> rfl

@[simp] theorem stepDashStart_wall_left :
    (stepDashStart inp s).wall_left = s.wall_left := by
  unfold stepDashStart; split <;> rfl

@[simp] theorem stepDashStart_wall_right :
    (stepDashStart inp s).wall_right = s.wall_right := by
  unfold stepDashStart; split <;> rfl

@[simp] theorem stepDashStart_facing :
    (stepDashStart inp s).facing = s.facing := by
  unfold stepDashStart; split <;> rfl

@[simp] theorem stepDashStart_is_wall_crouch :
    (stepDashStart inp s).is_wall_crouch = s.is_wall_crouch := by
  unfold stepDashStart; split <;> rfl

@[simp] theorem stepDashStart_stick_side :
    (stepDashStart inp s).stick_side = s.stick_side := by
  unfold stepDashStart; split <;> rfl

@[simp] theorem stepDashStart_wall_kick_timer :
    (stepDashStart inp s).wall_kick_timer = s.wall_kick_timer := by
  unfold stepDashStart; split <;> rfl

@[simp] theorem stepDashStart_wall_kick_lockout :
    (stepDashStart inp s).wall_kick_lockout = s.wall_kick_lockout := by
  unfold stepDashStart; split <;> rfl

@[simp] theorem stepDashStart_coyote_timer :
    (stepDashStart inp s).coyote_timer = s.coyote_timer := by
  unfold stepDashStart; split <;> rfl

@[simp] theorem stepDashStart_jump_buffer_timer :
    (stepDashStart inp s).jump_buffer_timer = s.jump_buffer_timer := by
  unfold stepDashStart; split <;> rfl

@[simp] theorem stepDashStart_jump_hold_timer :
    (stepDashStart inp s).jump_hold_timer = s.jump_hold_timer := by
  unfold stepDashStart; split <;> rfl

@[simp] theorem stepDashStart_is_dashing :
    (stepDashStart inp s).is_dashing = (s.is_dashing || dashStarts inp s) := by
  cases h : dashStarts inp s <;> simp [stepDashStart, h]

@[simp] theorem stepDashStart_dash_cd :
    (stepDashStart inp s).dash_cd
      = if dashStarts inp s then DASH_COOLDOWN else s.dash_cd := by
  cases h : dashStarts inp s <;> simp [stepDashStart, h]

@[simp] theorem stepDashStart_dash_timer :
    (stepDashStart inp s).dash_timer
      = if dashStarts inp s then DASH_TIME else s.dash_timer := by
  cases h : dashStarts inp s <;> simp [stepDashStart, h]

theorem stepWallKick_not (h : wallKicks inp s = false) :
    stepWallKick inp s = s := by
  simp [stepWallKick, h]

theorem stepWallKick_fire (h : wallKicks inp s = true) :
    stepWallKick inp s
      = { s with is_wall_crouch := false, wall_kick_timer := WALL_KICK_TIME,
                 wall_kick_lockout := WALL_KICK_LOCKOUT,
                 vx := kickDir s * WALL_KICK_SPEED_X,
                 vy := -WALL_KICK_SPEED_Y, stick_side := 0 } := by
  simp [stepWallKick, h]

@[simp] theorem stepWallKick_x : (stepWallKick inp s).x = s.x := by
  unfold stepWallKick; split <;> rfl

@[simp] theorem stepWallKick_y : (stepWallKick inp s).y = s.y := by
  unfold stepWallKick; split <;> rfl

@[simp] theorem stepWallKick_on_ground :
    (stepWallKick inp s).on_ground = s.on_ground := by
  unfold stepWallKick; split <;> rfl

@[simp] theorem stepWallKick_wall_left :
    (stepWallKick inp s).wall_left = s.wall_left := by
  unfold stepWallKick; split <;> rfl

@[simp] theorem stepWallKick_wall_right :
    (stepWallKick inp s).wall_right = s.wall_right := by
  unfold stepWallKick; split <;> rfl

@[simp] theorem stepWallKick_facing :
    (stepWallKick inp s).facing = s.facing := by
  unfold stepWallKick; split <;> rfl

@[simp] theorem stepWallKick_is_dashing :
    (stepWallKick inp s).is_dashing = s.is_dashing := by
  unfold stepWallKick; split <;> rfl

@[simp] theorem stepWallKick_dash_timer :
    (stepWallKick inp s).dash_timer = s.dash_timer := by
  unfold stepWallKick; split <;> rfl

@[simp] theorem stepWallKick_dash_cd :
    (stepWallKick inp s).dash_cd = s.dash_cd := by
  unfold stepWallKick; split <;> rfl

@[simp] theorem stepWallKick_dash_dx :
    (stepWallKick inp s).dash_dx = s.dash_dx := by
  unfold stepWallKick; split <;> rfl

@[simp] theorem stepWallKick_dash_dy :
    (stepWallKick inp s).dash_dy = s.dash_dy := by
  unfold stepWallKick; split <;> rfl

@[simp] theorem stepWallKick_coyote_timer :
    (stepWallKick inp s).coyote_timer = s.coyote_timer := by
  unfold stepWallKick; split <;> rfl

@[simp] theorem stepWallKick_jump_buffer_timer :
    (stepWallKick inp s).jump_buffer_timer = s.jump_buffer_timer := by
  unfold stepWallKick; split <;> rfl

@[simp] theorem stepWallKick_jump_hold_timer :
    (stepWallKick inp s).jump_hold_timer = s.jump_hold_timer := by
  unfold stepWallKick; split <;> rfl

@[simp] theorem stepWallKick_is_wall_crouch :
    (stepWallKick inp s).is_wall_crouch
      = (s.is_wall_crouch && !wallKicks inp s) := by
  cases h : wallKicks inp s <;> simp [stepWallKick, h]

@[simp] theorem stepWallKick_wall_kick_lockout :
    (stepWallKick inp s).wall_kick_lockout
      = if wallKicks inp s then WALL_KICK_LOCKOUT else s.wall_kick_lockout := by
  cases h : wallKicks inp s <;> simp [stepWallKick, h]

@[simp] theorem stepWallKick_wall_kick_timer :
    (stepWallKick inp s).wall_kick_timer
      = if wallKicks inp s then WALL_KICK_TIME else s.wall_kick_timer := by
  cases h : wallKicks inp s <;> simp [stepWallKick, h]

@[simp] theorem stepWallKick_vx :
    (stepWallKick inp s).vx
      = if wallKicks inp s then kickDir s * WALL_KICK_SPEED_X else s.vx := by
  cases h : wallKicks inp s <;> simp [stepWallKick, h]

@[simp] theorem stepWallKick_vy :
    (stepWallKick inp s).vy
      = if wallKicks inp s then -WALL_KICK_SPEED_Y else s.vy := by
  cases h : wallKicks inp s <;> simp [stepWallKick, h]

@[simp] theorem stepWallKick_stick_side :
    (stepWallKick inp s).stick_side
      = if wallKicks inp s then 0 else s.stick_side := by
  cases h : wallKicks inp s <;> simp [stepWallKick, h]

end PhaseLemmas

section PhaseLemmas2

variable (inp : MovementInput) (dt : ℝ) (s : MState ℝ)

@[simp] theorem startJump_vy : (startJump s).vy = -JUMP_SPEED := rfl

@[simp] theorem startJump_jump_hold_timer :
    (startJump s).jump_hold_timer = JUMP_HOLD_TIME := rfl

@[simp] theorem startJump_jump_buffer_timer :
    (startJump s).jump_buffer_timer = 0 := rfl

@[simp] theorem startJump_coyote_timer : (startJump s).coyote_timer = 0 := rfl

@[simp] theorem startJump_vx : (startJump s).vx = s.vx := rfl

@[simp] theorem startJump_x : (startJump s).x = s.x := rfl

@[simp] theorem startJump_y : (startJump s).y = s.y := rfl

@[simp] theorem startJump_on_ground : (startJump s).on_ground = s.on_ground :=
  rfl

@[simp] theorem startJump_wall_left : (startJump s).wall_left = s.wall_left :=
  rfl

@[simp] theorem startJump_wall_right :
    (startJump s).wall_right = s.wall_right := rfl

@[simp] theorem startJump_facing : (startJump s).facing = s.facing := rfl

@[simp] theorem startJump_is_wall_crouch :
    (startJump s).is_wall_crouch = s.is_wall_crouch := rfl

@[simp] theorem startJump_stick_side :
    (startJump s).stick_side = s.stick_side := rfl

@[simp] theorem startJump_is_dashing :
    (startJump s).is_dashing = s.is_dashing := rfl

@[simp] theorem startJump_dash_timer :
    (startJump s).dash_timer = s.dash_timer := rfl

@[simp] theorem startJump_dash_cd : (startJump s).dash_cd = s.dash_cd := rfl

@[simp] theorem startJump_wall_kick_timer :
    (startJump s).wall_kick_timer = s.wall_kick_timer := rfl

@[simp] theorem startJump_wall_kick_lockout :
    (startJump s).wall_kick_lockout = s.wall_kick_lockout := rfl

theorem stepBufferedJump_not (h : jumpCondBuffered s = false) :
    stepBufferedJump s = s := by
  simp [stepBufferedJump, h]

theorem stepBufferedJump_fire (h : jumpCondBuffered s = true) :
    stepBufferedJump s = startJump s := by
  simp [stepBufferedJump, h]

@[simp] theorem stepBufferedJump_is_dashing :
    (stepBufferedJump s).is_dashing = s.is_dashing := by
  unfold stepBufferedJump; split <;> rfl

@[simp] theorem stepBufferedJump_is_wall_crouch :
    (stepBufferedJump s).is_wall_crouch = s.is_wall_crouch := by
  unfold stepBufferedJump; split <;> rfl

@[simp] theorem stepBufferedJump_on_ground :
    (stepBufferedJump s).on_ground = s.on_ground := by
  unfold stepBufferedJump; split <;> rfl

@[simp] theorem stepBufferedJump_wall_left :
    (stepBufferedJump s).wall_left = s.wall_left := by
  unfold stepBufferedJump; split <;> rfl

@[simp] theorem stepBufferedJump_wall_right :
    (stepBufferedJump s).wall_right = s.wall_right := by
  unfold stepBufferedJump; split <;> rfl

@[simp] theorem stepBufferedJump_vx :
    (stepBufferedJump s).vx = s.vx := by
  unfold stepBufferedJump; split <;> rfl

@[simp] theorem stepBufferedJump_stick_side :
    (stepBufferedJump s).stick_side = s.stick_side := by
  unfold stepBufferedJump; split <;> rfl

@[simp] theorem stepBufferedJump_facing :
    (stepBufferedJump s).facing = s.facing := by
  unfold stepBufferedJump; split <;> rfl

@[simp] theorem stepBufferedJump_dash_timer :
    (stepBufferedJump s).dash_timer = s.dash_timer := by
  unfold stepBufferedJump; split <;> rfl

@[simp] theorem stepBufferedJump_dash_cd :
    (stepBufferedJump s).dash_cd = s.dash_cd := by
  unfold stepBufferedJump; split <;> rfl

@[simp] theorem stepBufferedJump_dash_dx :
    (stepBufferedJump s).dash_dx = s.dash_dx := by
  unfold stepBufferedJump; split <;> rfl

@[simp] theorem stepBufferedJump_dash_dy :
    (stepBufferedJump s).dash_dy = s.dash_dy := by
  unfold stepBufferedJump; split <;> rfl

@[simp] theorem stepBufferedJump_wall_kick_timer :
    (stepBufferedJump s).wall_kick_timer = s.wall_kick_timer := by
  unfold stepBufferedJump; split <;> rfl

@[simp] theorem stepBufferedJump_wall_kick_lockout :
    (stepBufferedJump s).wall_kick_lockout = s.wall_kick_lockout := by
  unfold stepBufferedJump; split <;> rfl

@[simp] theorem stepBufferedJump_x : (stepBufferedJump s).x = s.x := by
  unfold stepBufferedJump; split <;> rfl

@[simp] theorem stepBufferedJump_y : (stepBufferedJump s).y = s.y := by
  unfold stepBufferedJump; split <;> rfl

theorem stepLandingJump_not (h : jumpCondLanding s = false) :
    stepLandingJump s = s := by
  simp [stepLandingJump, h]

theorem stepLandingJump_fire (h : jumpCondLanding s = true) :
    stepLandingJump s = startJump s := by
  simp [stepLandingJump, h]

@[simp] theorem stepLandingJump_is_dashing :
    (stepLandingJump s).is_dashing = s.is_dashing := by
  unfold stepLandingJump; split <;> rfl

@[simp] theorem stepLandingJump_is_wall_crouch :
    (stepLandingJump s).is_wall_crouch = s.is_wall_crouch := by
  unfold stepLandingJump; split <;> rfl

@[simp] theorem stepLandingJump_on_ground :
    (stepLandingJump s).on_ground = s.on_ground := by
  unfold stepLandingJump; split <;> rfl

@[simp] theorem stepLandingJump_vx :
    (stepLandingJump s).vx = s.vx := by
  unfold stepLandingJump; split <;> rfl

@[simp] theorem stepLandingJump_wall_kick_lockout :
    (stepLandingJump s).wall_kick_lockout = s.wall_kick_lockout := by
  unfold stepLandingJump; split <;> rfl

@[simp] theorem stepLandingJump_wall_kick_timer :
    (stepLandingJump s).wall_kick_timer = s.wall_kick_timer := by
  unfold stepLandingJump; split <;> rfl

@[simp] theorem stepLandingJump_dash_timer :
    (stepLandingJump s).dash_timer = s.dash_timer := by
  unfold stepLandingJump; split <;> rfl

@[simp] theorem stepLandingJump_dash_cd :
    (stepLandingJump s).dash_cd = s.dash_cd := by
  unfold stepLandingJump; split <;> rfl

theorem stepStick_not (h : stickCond s = false) : stepStick s = s := by
  simp [stepStick, h]

theorem stepStick_fire (h : stickCond s = true) :
    stepStick s = { s with
      is_wall_crouch := true
      stick_side := (if s.wall_left then -1 else 1)
      facing := -(if s.wall_left then (-1 : ℤ) else 1)
      vx := 0
      vy := 0 } := by
  simp [stepStick, h]

@[simp] theorem stepStick_x : (stepStick s).x = s.x := by
  unfold stepStick; split <;> rfl

@[simp] theorem stepStick_y : (stepStick s).y = s.y := by
  unfold stepStick; split <;> rfl

@[simp] theorem stepStick_on_ground :
    (stepStick s).on_ground = s.on_ground := by
  unfold stepStick; split <;> rfl

@[simp] theorem stepStick_wall_left :
    (stepStick s).wall_left = s.wall_left := by
  unfold stepStick; split <;> rfl

@[simp] theorem stepStick_wall_right :
    (stepStick s).wall_right = s.wall_right := by
  unfold stepStick; split <;> rfl

@[simp] theorem stepStick_is_dashing :
    (stepStick s).is_dashing = s.is_dashing := by
  unfold stepStick; split <;> rfl

@[simp] theorem stepStick_dash_timer :
    (stepStick s).dash_timer = s.dash_timer := by
  unfold stepStick; split <;> rfl

@[simp] theorem stepStick_dash_cd : (stepStick s).dash_cd = s.dash_cd := by
  unfold stepStick; split <;> rfl

@[simp] theorem stepStick_wall_kick_timer :
    (stepStick s).wall_kick_timer = s.wall_kick_timer := by
  unfold stepStick; split <;> rfl

@[simp] theorem stepStick_wall_kick_lockout :
    (stepStick s).wall_kick_lockout = s.wall_kick_lockout := by
  unfold stepStick; split <;> rfl

@[simp] theorem stepStick_coyote_timer :
    (stepStick s).coyote_timer = s.coyote_timer := by
  unfold stepStick; split <;> rfl

@[simp] theorem stepStick_jump_buffer_timer :
    (stepStick s).jump_buffer_timer = s.jump_buffer_timer := by
  unfold stepStick; split <;> rfl

@[simp] theorem stepStick_jump_hold_timer :
    (stepStick s).jump_hold_timer = s.jump_hold_timer := by
  unfold stepStick; split <;> rfl

theorem stepDetach_not
    (h : (s.is_wall_crouch && !s.wall_left && !s.wall_right) = false) :
    stepDetach s = s := by
  simp only [stepDetach, h, Bool.false_eq_true, if_false]

theorem stepDetach_fire
    (h : (s.is_wall_crouch && !s.wall_left && !s.wall_right) = true) :
    stepDetach s = { s with is_wall_crouch := false, stick_side := 0 } := by
  simp only [stepDetach, h, if_true]

@[simp] theorem stepDetach_x : (stepDetach s).x = s.x := by
  unfold stepDetach; split <;> rfl

@[simp] theorem stepDetach_y : (stepDetach s).y = s.y := by
  unfold stepDetach; split <;> rfl

@[simp] theorem stepDetach_vx : (stepDetach s).vx = s.vx := by
  unfold stepDetach; split <;> rfl

@[simp] theorem stepDetach_vy : (stepDetach s).vy = s.vy := by
  unfold stepDetach; split <;> rfl

@[simp] theorem stepDetach_on_ground :
    (stepDetach s).on_ground = s.on_ground := by
  unfold stepDetach; split <;> rfl

@[simp] theorem stepDetach_is_dashing :
    (stepDetach s).is_dashing = s.is_dashing := by
  unfold stepDetach; split <;> rfl

@[simp] theorem stepDetach_dash_timer :
    (stepDetach s).dash_timer = s.dash_timer := by
  unfold stepDetach; split <;> rfl

@[simp] theorem stepDetach_dash_cd : (stepDetach s).dash_cd = s.dash_cd := by
  unfold stepDetach; split <;> rfl

@[simp] theorem stepDetach_wall_kick_timer :
    (stepDetach s).wall_kick_timer = s.wall_kick_timer := by
  unfold stepDetach; split <;> rfl

@[simp] theorem stepDetach_wall_kick_lockout :
    (stepDetach s).wall_kick_lockout = s.wall_kick_lockout := by
  unfold stepDetach; split <;> rfl

@[simp] theorem stepDetach_coyote_timer :
    (stepDetach s).coyote_timer = s.coyote_timer := by
  unfold stepDetach; split <;> rfl

@[simp] theorem stepDetach_jump_buffer_timer :
    (stepDetach s).jump_buffer_timer = s.jump_buffer_timer := by
  unfold stepDetach; split <;> rfl

@[simp] theorem stepDetach_jump_hold_timer :
    (stepDetach s).jump_hold_timer = s.jump_hold_timer := by
  unfold stepDetach; split <;> rfl

@[simp] theorem stepDetach_is_wall_crouch :
    (stepDetach s).is_wall_crouch
      = (s.is_wall_crouch && (s.wall_left || s.wall_right)) := by
  unfold stepDetach
  cases hl : s.wall_left <;> cases hr : s.wall_right <;>
    cases hc : s.is_wall_crouch <;> simp [hl, hr, hc]

end PhaseLemmas2

section PhaseLemmas3

variable (inp : MovementInput) (dt : ℝ) (s : MState ℝ)

theorem update_eq (solids : List Rect) :
    update solids inp dt s
      = stepLandingJump (stepDetach (stepStick (resolveAxis solids
          (integrate inp dt (preMove inp dt s)).1
          (integrate inp dt (preMove inp dt s)).2.1
          (integrate inp dt (preMove inp dt s)).2.2))) := rfl

theorem preMove_eq :
    preMove inp dt s
      = stepBufferedJump (stepWallKick inp (stepDashStart inp
          (stepTimersFacing inp dt s))) := rfl

@[simp] theorem integrate_x : (integrate inp dt s).1.x = s.x := by
  unfold integrate; split_ifs <;> rfl

@[simp] theorem integrate_y : (integrate inp dt s).1.y = s.y := by
  unfold integrate; split_ifs <;> rfl

@[simp] theorem integrate_on_ground :
    (integrate inp dt s).1.on_ground = s.on_ground := by
  unfold integrate; split_ifs <;> rfl

@[simp] theorem integrate_wall_left :
    (integrate inp dt s).1.wall_left = s.wall_left := by
  unfold integrate; split_ifs <;> rfl

@[simp] theorem integrate_wall_right :
    (integrate inp dt s).1.wall_right = s.wall_right := by
  unfold integrate; split_ifs <;> rfl

@[simp] theorem integrate_facing :
    (integrate inp dt s).1.facing = s.facing := by
  unfold integrate; split_ifs <;> rfl

@[simp] theorem integrate_stick_side :
    (integrate inp dt s).1.stick_side = s.stick_side := by
  unfold integrate; split_ifs <;> rfl

@[simp] theorem integrate_is_wall_crouch :
    (integrate inp dt s).1.is_wall_crouch = s.is_wall_crouch := by
  unfold integrate; split_ifs <;> rfl

@[simp] theorem integrate_dash_dx :
    (integrate inp dt s).1.dash_dx = s.dash_dx := by
  unfold integrate; split_ifs <;> rfl

@[simp] theorem integrate_dash_dy :
    (integrate inp dt s).1.dash_dy = s.dash_dy := by
  unfold integrate; split_ifs <;> rfl

@[simp] theorem integrate_dash_cd :
    (integrate inp dt s).1.dash_cd = s.dash_cd := by
  unfold integrate; split_ifs <;> rfl

@[simp] theorem integrate_wall_kick_timer :
    (integrate inp dt s).1.wall_kick_timer = s.wall_kick_timer := by
  unfold integrate; split_ifs <;> rfl

@[simp] theorem integrate_wall_kick_lockout :
    (integrate inp dt s).1.wall_kick_lockout = s.wall_kick_lockout := by
  unfold integrate; split_ifs <;> rfl

@[simp] theorem integrate_coyote_timer :
    (integrate inp dt s).1.coyote_timer = s.coyote_timer := by
  unfold integrate; split_ifs <;> rfl

@[simp] theorem integrate_jump_buffer_timer :
    (integrate inp dt s).1.jump_buffer_timer = s.jump_buffer_timer := by
  unfold integrate; split_ifs <;> rfl

theorem integrate_dash (h : s.is_dashing = true) :
    integrate inp dt s
      = (if s.dash_timer - dt ≤ 0 then
           { s with dash_timer := s.dash_timer - dt, is_dashing := false }
         else { s with dash_timer := s.dash_timer - dt },
         s.dash_dx * dt, s.dash_dy * dt) := by
  simp [integrate, h]

theorem integrate_crouch (hd : s.is_dashing = false)
    (hc : s.is_wall_crouch = true) :
    integrate inp dt s
      = ({ s with vx := 0, vy := slideVy inp }, 0, slideVy inp * dt) := by
  simp [integrate, hd, hc]

theorem integrate_normal (hd : s.is_dashing = false)
    (hc : s.is_wall_crouch = false) :
    integrate inp dt s
      = ({ s with
            vx := (clampSpeed (dragStep (normalVx inp dt s) dt)
              (dragStep (normalVy inp dt s) dt)).1
            vy := (clampSpeed (dragStep (normalVx inp dt s) dt)
              (dragStep (normalVy inp dt s) dt)).2
            jump_hold_timer :=
              (if holdActiveB inp s then max 0 (s.jump_hold_timer - dt)
                else s.jump_hold_timer) },
          (clampSpeed (dragStep (normalVx inp dt s) dt)
            (dragStep (normalVy inp dt s) dt)).1 * dt,
          (clampSpeed (dragStep (normalVx inp dt s) dt)
            (dragStep (normalVy inp dt s) dt)).2 * dt) := by
  simp [integrate, hd, hc]

end PhaseLemmas3

section ResolverSimp

variable {K : Type} [LinearOrderedField K] [FloorRing K]
variable (solids : List Rect) (s : MState K) (mx my : K)

@[simp] theorem resolveAxisF_vx : (resolveAxis solids s mx my).vx = s.vx :=
  rfl

@[simp] theorem resolveAxisF_facing :
    (resolveAxis solids s mx my).facing = s.facing := rfl

@[simp] theorem resolveAxisF_is_dashing :
    (resolveAxis solids s mx my).is_dashing = s.is_dashing := rfl

@[simp] theorem resolveAxisF_is_wall_crouch :
    (resolveAxis solids s mx my).is_wall_crouch = s.is_wall_crouch := rfl

@[simp] theorem resolveAxisF_stick_side :
    (resolveAxis solids s mx my).stick_side = s.stick_side := rfl

@[simp] theorem resolveAxisF_dash_timer :
    (resolveAxis solids s mx my).dash_timer = s.dash_timer := rfl

@[simp] theorem resolveAxisF_dash_cd :
    (resolveAxis solids s mx my).dash_cd = s.dash_cd := rfl

@[simp] theorem resolveAxisF_dash_dx :
    (resolveAxis solids s mx my).dash_dx = s.dash_dx := rfl

@[simp] theorem resolveAxisF_dash_dy :
    (resolveAxis solids s mx my).dash_dy = s.dash_dy := rfl

@[simp] theorem resolveAxisF_wall_kick_timer :
    (resolveAxis solids s mx my).wall_kick_timer = s.wall_kick_timer := rfl

@[simp] theorem resolveAxisF_wall_kick_lockout :
    (resolveAxis solids s mx my).wall_kick_lockout = s.wall_kick_lockout :=
  rfl

@[simp] theorem resolveAxisF_coyote_timer :
    (resolveAxis solids s mx my).coyote_timer = s.coyote_timer := rfl

@[simp] theorem resolveAxisF_jump_buffer_timer :
    (resolveAxis solids s mx my).jump_buffer_timer = s.jump_buffer_timer :=
  rfl

@[simp] theorem resolveAxisF_jump_hold_timer :
    (resolveAxis solids s mx my).jump_hold_timer = s.jump_hold_timer := rfl

theorem resolveAxis_on_ground :
    (resolveAxis solids s mx my).on_ground = groundFlag solids s mx my := rfl

theorem resolveAxis_wall_left :
    (resolveAxis solids s mx my).wall_left = (wallFlags solids s mx).1 := rfl

theorem resolveAxis_wall_right :
    (resolveAxis solids s mx my).wall_right = (wallFlags solids s mx).2 := rfl

theorem resolveAxis_vy_eq :
    (resolveAxis solids s mx my).vy
      = if groundFlag solids s mx my then 0 else s.vy := rfl

@[simp] theorem wallFlags_nil : wallFlags [] s mx = (false, false) := by
  unfold wallFlags sweepX probeX
  split_ifs <;> rfl

@[simp] theorem groundFlag_nil : groundFlag [] s mx my = false := by
  unfold groundFlag sweepY probeY
  split_ifs <;> rfl

theorem sweepY_no_floor (moveY : K) (r0 : Rect) (h : moveY ≤ 0) :
    (sweepY moveY solids r0).2.2 = false := by
  suffices main : ∀ (l : List Rect) (acc : Rect × K × Bool), acc.2.1 ≤ 0 →
      acc.2.2 = false →
      (l.foldl (fun acc tile =>
        if collide acc.1 tile then
          if 0 < acc.2.1 then
            (⟨acc.1.x, tile.y - acc.1.h, acc.1.w, acc.1.h⟩, 0, true)
          else
            (⟨acc.1.x, tile.y + tile.h, acc.1.w, acc.1.h⟩, 0, acc.2.2)
        else acc) acc).2.1 ≤ 0 ∧
      (l.foldl (fun acc tile =>
        if collide acc.1 tile then
          if 0 < acc.2.1 then
            (⟨acc.1.x, tile.y - acc.1.h, acc.1.w, acc.1.h⟩, 0, true)
          else
            (⟨acc.1.x, tile.y + tile.h, acc.1.w, acc.1.h⟩, 0, acc.2.2)
        else acc) acc).2.2 = false by
    exact (main solids (r0, moveY, false) h rfl).2
  intro l
  induction l with
  | nil => intro acc h1 h2; exact ⟨h1, h2⟩
  | cons t ts ih =>
    intro acc h1 h2
    simp only [List.foldl_cons]
    by_cases hcol : collide acc.1 t = true
    · rw [if_pos hcol, if_neg (by exact not_lt_of_le h1)]
      exact ih _ le_rfl h2
    · rw [if_neg hcol]
      exact ih acc h1 h2

theorem groundFlag_nonpos (hne : my ≠ 0) (hle : my ≤ 0) :
    groundFlag solids s mx my = false := by
  unfold groundFlag
  rw [if_pos hne]
  exact sweepY_no_floor solids my _ hle

end ResolverSimp

section ClampLemmas

theorem MAX_SPEED_pos : (0 : ℝ) < MAX_SPEED := by norm_num [MAX_SPEED]

theorem clampSpeed_norm_le (vx vy : ℝ) :
    (clampSpeed vx vy).1 ^ 2 + (clampSpeed vx vy).2 ^ 2 ≤ MAX_SPEED ^ 2 := by
  unfold clampSpeed
  by_cases h : MAX_SPEED < Real.sqrt (vx ^ 2 + vy ^ 2)
  · rw [if_pos h]
    have hS : (0:ℝ) ≤ vx ^ 2 + vy ^ 2 := by positivity
    have hs : Real.sqrt (vx ^ 2 + vy ^ 2) ^ 2 = vx ^ 2 + vy ^ 2 :=
      Real.sq_sqrt hS
    have hspos : 0 < Real.sqrt (vx ^ 2 + vy ^ 2) :=
      lt_trans MAX_SPEED_pos h
    have hSpos : (0:ℝ) < vx ^ 2 + vy ^ 2 := by
      rw [← hs]; positivity
    have hexp : (vx * (MAX_SPEED / Real.sqrt (vx ^ 2 + vy ^ 2))) ^ 2
        + (vy * (MAX_SPEED / Real.sqrt (vx ^ 2 + vy ^ 2))) ^ 2
        = (vx ^ 2 + vy ^ 2) * MAX_SPEED ^ 2
          / Real.sqrt (vx ^ 2 + vy ^ 2) ^ 2 := by
      field_simp
      ring
    rw [hexp, hs, mul_comm, mul_div_assoc,
      div_self (ne_of_gt hSpos), mul_one]
  · rw [if_neg h]
    push_neg at h
    have hS : (0:ℝ) ≤ vx ^ 2 + vy ^ 2 := by positivity
    calc vx ^ 2 + vy ^ 2 = Real.sqrt (vx ^ 2 + vy ^ 2) ^ 2 :=
          (Real.sq_sqrt hS).symm
      _ ≤ MAX_SPEED ^ 2 := by
          exact pow_le_pow_left (Real.sqrt_nonneg _) h 2

theorem clampSpeed_eq_self (vx vy : ℝ)
    (h : vx ^ 2 + vy ^ 2 ≤ MAX_SPEED ^ 2) : clampSpeed vx vy = (vx, vy) := by
  unfold clampSpeed
  have hle : Real.sqrt (vx ^ 2 + vy ^ 2) ≤ MAX_SPEED := by
    calc Real.sqrt (vx ^ 2 + vy ^ 2) ≤ Real.sqrt (MAX_SPEED ^ 2) :=
          Real.sqrt_le_sqrt h
      _ = MAX_SPEED := Real.sqrt_sq (le_of_lt MAX_SPEED_pos)
  rw [if_neg (not_lt.mpr hle)]

theorem clampSpeed_neg_fst (vx vy : ℝ) (h : vx < 0) :
    (clampSpeed vx vy).1 < 0 := by
  unfold clampSpeed
  split_ifs with hc
  · exact mul_neg_of_neg_of_pos h
      (div_pos MAX_SPEED_pos (lt_trans MAX_SPEED_pos hc))
  · exact h

theorem clampSpeed_neg_snd (vx vy : ℝ) (h : vy < 0) :
    (clampSpeed vx vy).2 < 0 := by
  unfold clampSpeed
  split_ifs with hc
  · exact mul_neg_of_neg_of_pos h
      (div_pos MAX_SPEED_pos (lt_trans MAX_SPEED_pos hc))
  · exact h

theorem clampSpeed_pos_snd (vx vy : ℝ) (h : 0 < vy) :
    0 < (clampSpeed vx vy).2 := by
  unfold clampSpeed
  split_ifs with hc
  · exact mul_pos h (div_pos MAX_SPEED_pos (lt_trans MAX_SPEED_pos hc))
  · exact h

theorem clampSpeed_pos_fst (vx vy : ℝ) (h : 0 < vx) :
    0 < (clampSpeed vx vy).1 := by
  unfold clampSpeed
  split_ifs with hc
  · exact mul_pos h (div_pos MAX_SPEED_pos (lt_trans MAX_SPEED_pos hc))
  · exact h

theorem dragStep_eq (v dt : ℝ) : dragStep v dt = v * (1 - DRAG * dt) := by
  unfold dragStep
  ring

end ClampLemmas

/-! ## Claim C3 -/

theorem modeCount_eq_one (s : MState ℝ) :
    modeCount s = 1 ↔
      ¬(s.is_dashing = true ∧ s.is_wall_crouch = true) := by
  cases hd : s.is_dashing <;> cases hc : s.is_wall_crouch <;>
    simp [modeCount, hd, hc]

theorem integrate_is_dashing_imp (inp : MovementInput) (dt : ℝ)
    (s : MState ℝ) :
    (integrate inp dt s).1.is_dashing = true → s.is_dashing = true := by
  unfold integrate
  split_ifs <;> simp_all

theorem update_modes (solids : List Rect) (inp : MovementInput) (dt : ℝ)
    (s : MState ℝ)
    (hs : s.is_dashing = true → s.is_wall_crouch = false) :
    (update solids inp dt s).is_dashing = true →
      (update solids inp dt s).is_wall_crouch = false := by
  intro hu
  rw [update_eq] at hu ⊢
  simp only [stepLandingJump_is_dashing, stepDetach_is_dashing,
    stepStick_is_dashing, resolveAxisF_is_dashing] at hu
  -- hu : the integrated state is still dashing
  have hpd : (preMove inp dt s).is_dashing = true :=
    integrate_is_dashing_imp inp dt _ hu
  have hcr : s.is_wall_crouch = false := by
    rw [preMove_eq] at hpd
    simp only [stepBufferedJump_is_dashing, stepWallKick_is_dashing,
      stepDashStart_is_dashing, stepTimersFacing_is_dashing,
      Bool.or_eq_true] at hpd
    rcases hpd with h1 | h2
    · exact hs h1
    · simp only [dashStarts, Bool.and_eq_true, Bool.not_eq_true'] at h2
      simpa using h2.2
  have hsc : stickCond (resolveAxis solids
      (integrate inp dt (preMove inp dt s)).1
      (integrate inp dt (preMove inp dt s)).2.1
      (integrate inp dt (preMove inp dt s)).2.2) = false := by
    simp [stickCond, hu]
  simp only [stepLandingJump_is_wall_crouch, stepDetach_is_wall_crouch]
  rw [stepStick_not _ hsc]
  simp only [resolveAxisF_is_wall_crouch, integrate_is_wall_crouch]
  rw [preMove_eq]
  simp only [stepBufferedJump_is_wall_crouch, stepWallKick_is_wall_crouch,
    stepDashStart_is_wall_crouch, stepTimersFacing_is_wall_crouch, hcr]
  simp

/-- C3: mode exclusivity is an inductive invariant — the initial movement
state is in exactly one of the modes normal, dashing and wall-crouch, and
one update step (any tiles, any input, any dt ≥ 0) preserves being in
exactly one mode; in particular `is_dashing` and `is_wall_crouch` are never
both true. -/
theorem C3_mode_exclusivity :
    (∀ x y : ℝ, modeCount (initState x y) = 1) ∧
    (∀ (solids : List Rect) (inp : MovementInput) (dt : ℝ) (s : MState ℝ),
      0 ≤ dt → modeCount s = 1 → modeCount (update solids inp dt s) = 1) := by
  constructor
  · intro x y
    simp [modeCount, initState]
  · intro solids inp dt s _ hm
    rw [modeCount_eq_one] at hm ⊢
    intro hand
    have := update_modes solids inp dt s
      (fun hd => by
        by_contra hc
        exact hm ⟨hd, by simpa using hc⟩) hand.1
    rw [this] at hand
    exact absurd hand.2 (by simp)

/-- C3 witness: the initial state is in exactly one mode, and so is the
state after one update with a concrete input, tile set and dt. -/
theorem C3_witness :
    modeCount (initState 0 0) = 1 ∧
    modeCount (update [⟨0, 64, 32, 32⟩] ⟨0, 0, false, false, false, false⟩
      (1/60) (initState 0 0)) = 1 := by
  refine ⟨C3_mode_exclusivity.1 0 0, ?_⟩
  exact C3_mode_exclusivity.2 [⟨0, 64, 32, 32⟩] ⟨0, 0, false, false, false,
    false⟩ (1/60) (initState 0 0) (by norm_num) (C3_mode_exclusivity.1 0 0)

/-! ## Claim C2 -/

section JumpCharLemmas

variable (s : MState ℝ)

@[simp] theorem stepBufferedJump_coyote_timer :
    (stepBufferedJump s).coyote_timer
      = if jumpCondBuffered s then 0 else s.coyote_timer := by
  unfold stepBufferedJump; split <;> simp

@[simp] theorem stepBufferedJump_jump_buffer_timer :
    (stepBufferedJump s).jump_buffer_timer
      = if jumpCondBuffered s then 0 else s.jump_buffer_timer := by
  unfold stepBufferedJump; split <;> simp

@[simp] theorem stepBufferedJump_jump_hold_timer :
    (stepBufferedJump s).jump_hold_timer
      = if jumpCondBuffered s then JUMP_HOLD_TIME else s.jump_hold_timer := by
  unfold stepBufferedJump; split <;> simp

@[simp] theorem stepBufferedJump_vy :
    (stepBufferedJump s).vy
      = if jumpCondBuffered s then -JUMP_SPEED else s.vy := by
  unfold stepBufferedJump; split <;> simp

@[simp] theorem stepLandingJump_coyote_timer :
    (stepLandingJump s).coyote_timer
      = if jumpCondLanding s then 0 else s.coyote_timer := by
  unfold stepLandingJump; split <;> simp

@[simp] theorem stepLandingJump_jump_buffer_timer :
    (stepLandingJump s).jump_buffer_timer
      = if jumpCondLanding s then 0 else s.jump_buffer_timer := by
  unfold stepLandingJump; split <;> simp

@[simp] theorem stepLandingJump_jump_hold_timer :
    (stepLandingJump s).jump_hold_timer
      = if jumpCondLanding s then JUMP_HOLD_TIME else s.jump_hold_timer := by
  unfold stepLandingJump; split <;> simp

@[simp] theorem stepLandingJump_vy :
    (stepLandingJump s).vy
      = if jumpCondLanding s then -JUMP_SPEED else s.vy := by
  unfold stepLandingJump; split <;> simp

end JumpCharLemmas

theorem max_zero_sub (t d : ℝ) : max 0 (t - d) = t - min t d := by
  rcases le_total t d with h | h
  · rw [min_eq_left h, max_eq_left (by linarith), sub_self]
  · rw [min_eq_right h, max_eq_right (by linarith)]

theorem decay_eq (t d : ℝ) (ht : 0 ≤ t) (hd : 0 ≤ d) :
    (if 0 < t then max 0 (t - d) else t) = t - min t d := by
  rcases lt_or_le 0 t with h | h
  · rw [if_pos h, max_zero_sub]
  · have h0 : t = 0 := le_antisymm h ht
    rw [if_neg (not_lt.mpr h), h0]
    rw [min_eq_left hd]
    ring

theorem update_dash_cd (solids : List Rect) (inp : MovementInput) (dt : ℝ)
    (s : MState ℝ) :
    (update solids inp dt s).dash_cd
      = if dashStarts inp (stepTimersFacing inp dt s) then DASH_COOLDOWN
        else (stepTimersFacing inp dt s).dash_cd := by
  rw [update_eq, preMove_eq]
  simp

theorem update_wall_kick_timer (solids : List Rect) (inp : MovementInput)
    (dt : ℝ) (s : MState ℝ) :
    (update solids inp dt s).wall_kick_timer
      = if wallKicks inp (stepDashStart inp (stepTimersFacing inp dt s))
        then WALL_KICK_TIME else (stepTimersFacing inp dt s).wall_kick_timer := by
  rw [update_eq, preMove_eq]
  simp

theorem update_wall_kick_lockout (solids : List Rect) (inp : MovementInput)
    (dt : ℝ) (s : MState ℝ) :
    (update solids inp dt s).wall_kick_lockout
      = if wallKicks inp (stepDashStart inp (stepTimersFacing inp dt s))
        then WALL_KICK_LOCKOUT
        else (stepTimersFacing inp dt s).wall_kick_lockout := by
  rw [update_eq, preMove_eq]
  simp

theorem update_coyote_timer (solids : List Rect) (inp : MovementInput)
    (dt : ℝ) (s : MState ℝ) :
    (update solids inp dt s).coyote_timer
      = if jumpCondLanding (stepDetach (stepStick (resolveAxis solids
            (integrate inp dt (preMove inp dt s)).1
            (integrate inp dt (preMove inp dt s)).2.1
            (integrate inp dt (preMove inp dt s)).2.2))) then 0
        else if jumpCondBuffered (stepWallKick inp (stepDashStart inp
            (stepTimersFacing inp dt s))) then 0
        else (stepTimersFacing inp dt s).coyote_timer := by
  conv_lhs => rw [update_eq]
  simp only [stepLandingJump_coyote_timer, stepDetach_coyote_timer,
    stepStick_coyote_timer, resolveAxisF_coyote_timer, integrate_coyote_timer]
  rw [preMove_eq]
  simp only [stepBufferedJump_coyote_timer, stepWallKick_coyote_timer,
    stepDashStart_coyote_timer]

theorem update_jump_buffer_timer (solids : List Rect) (inp : MovementInput)
    (dt : ℝ) (s : MState ℝ) :
    (update solids inp dt s).jump_buffer_timer
      = if jumpCondLanding (stepDetach (stepStick (resolveAxis solids
            (integrate inp dt (preMove inp dt s)).1
            (integrate inp dt (preMove inp dt s)).2.1
            (integrate inp dt (preMove inp dt s)).2.2))) then 0
        else if jumpCondBuffered (stepWallKick inp (stepDashStart inp
            (stepTimersFacing inp dt s))) then 0
        else (stepTimersFacing inp dt s).jump_buffer_timer := by
  conv_lhs => rw [update_eq]
  simp only [stepLandingJump_jump_buffer_timer, stepDetach_jump_buffer_timer,
    stepStick_jump_buffer_timer, resolveAxisF_jump_buffer_timer,
    integrate_jump_buffer_timer]
  rw [preMove_eq]
  simp only [stepBufferedJump_jump_buffer_timer,
    stepWallKick_jump_buffer_timer, stepDashStart_jump_buffer_timer]

theorem integrate_hold_nonneg (inp : MovementInput) (dt : ℝ) (s : MState ℝ)
    (h : 0 ≤ s.jump_hold_timer) :
    0 ≤ (integrate inp dt s).1.jump_hold_timer := by
  unfold integrate
  split_ifs <;> first | exact h | exact le_max_left 0 _

theorem preMove_dash_timer_nonneg (inp : MovementInput) (dt : ℝ)
    (s : MState ℝ) (h : 0 ≤ s.dash_timer) :
    0 ≤ (preMove inp dt s).dash_timer := by
  rw [preMove_eq]
  simp only [stepBufferedJump_dash_timer, stepWallKick_dash_timer,
    stepDashStart_dash_timer, stepTimersFacing_dash_timer]
  split_ifs
  · norm_num [DASH_TIME]
  · exact h

/-- C2, amended: for `dt ≥ 0` and non-negative timers, one update step
decreases the dash cooldown, the wall-kick timer, the wall-kick lockout,
the coyote timer and the jump buffer by exactly `min(T, dt)` absent their
refresh/consumption events (dash start, wall kick, jump start, standing on
ground, jump press), and none of them ever goes negative; the jump-hold
timer decreases by `min(T, dt)` only in the normal branch while jump is
held and is otherwise untouched; but the dash-duration timer, contrary to
the claim, decreases by exactly `dt` (not `min(T, dt)`) while dashing and is
not clamped, so it can end an update negative (bounded below by `-dt`). -/
theorem C2_timer_decrement (solids : List Rect) (inp : MovementInput)
    (dt : ℝ) (s : MState ℝ) (hdt : 0 ≤ dt)
    (h1 : 0 ≤ s.dash_cd) (h2 : 0 ≤ s.wall_kick_timer)
    (h3 : 0 ≤ s.wall_kick_lockout) (h4 : 0 ≤ s.coyote_timer)
    (h5 : 0 ≤ s.jump_buffer_timer) (h6 : 0 ≤ s.jump_hold_timer)
    (h7 : 0 ≤ s.dash_timer) :
    (dashStarts inp (stepTimersFacing inp dt s) = false →
      (update solids inp dt s).dash_cd = s.dash_cd - min s.dash_cd dt) ∧
    (wallKicks inp (stepDashStart inp (stepTimersFacing inp dt s)) = false →
      (update solids inp dt s).wall_kick_timer
          = s.wall_kick_timer - min s.wall_kick_timer dt ∧
      (update solids inp dt s).wall_kick_lockout
          = s.wall_kick_lockout - min s.wall_kick_lockout dt) ∧
    (jumpStartsIn solids inp dt s = false → s.on_ground = false →
      (update solids inp dt s).coyote_timer
          = s.coyote_timer - min s.coyote_timer dt) ∧
    (jumpStartsIn solids inp dt s = false → inp.jump_pressed = false →
      (update solids inp dt s).jump_buffer_timer
          = s.jump_buffer_timer - min s.jump_buffer_timer dt) ∧
    (jumpStartsIn solids inp dt s = false →
      (preMove inp dt s).is_dashing = false →
      (preMove inp dt s).is_wall_crouch = false →
      holdActiveB inp (preMove inp dt s) = true →
      (update solids inp dt s).jump_hold_timer
          = s.jump_hold_timer - min s.jump_hold_timer dt) ∧
    (jumpStartsIn solids inp dt s = false →
      ((preMove inp dt s).is_dashing = true ∨
        (preMove inp dt s).is_wall_crouch = true ∨
        holdActiveB inp (preMove inp dt s) = false) →
      (update solids inp dt s).jump_hold_timer = s.jump_hold_timer) ∧
    ((preMove inp dt s).is_dashing = true →
      (update solids inp dt s).dash_timer
          = (preMove inp dt s).dash_timer - dt) ∧
    ((preMove inp dt s).is_dashing = false →
      (update solids inp dt s).dash_timer = s.dash_timer) ∧
    (0 ≤ (update solids inp dt s).dash_cd ∧
     0 ≤ (update solids inp dt s).wall_kick_timer ∧
     0 ≤ (update solids inp dt s).wall_kick_lockout ∧
     0 ≤ (update solids inp dt s).coyote_timer ∧
     0 ≤ (update solids inp dt s).jump_buffer_timer ∧
     0 ≤ (update solids inp dt s).jump_hold_timer ∧
     -dt ≤ (update solids inp dt s).dash_timer) := by
  refine ⟨?_, ?_, ?_, ?_, ?_, ?_, ?_, ?_, ?_, ?_, ?_, ?_, ?_, ?_, ?_⟩
  · -- dash cooldown
    intro hnds
    rw [update_dash_cd]
    simp only [hnds, Bool.false_eq_true, if_false, stepTimersFacing_dash_cd]
    exact decay_eq _ _ h1 hdt
  · -- wall-kick timer and lockout
    intro hnk
    constructor
    · rw [update_wall_kick_timer]
      simp only [hnk, Bool.false_eq_true, if_false,
        stepTimersFacing_wall_kick_timer]
      exact decay_eq _ _ h2 hdt
    · rw [update_wall_kick_lockout]
      simp only [hnk, Bool.false_eq_true, if_false,
        stepTimersFacing_wall_kick_lockout]
      exact decay_eq _ _ h3 hdt
  · -- coyote
    intro hjs hog
    simp only [jumpStartsIn, Bool.or_eq_false_iff] at hjs
    rw [update_coyote_timer, preMove_eq]
    simp only [hjs.1, hjs.2, Bool.false_eq_true, if_false,
      stepTimersFacing_coyote_timer, hog]
    exact max_zero_sub _ _
  · -- jump buffer
    intro hjs hjp
    simp only [jumpStartsIn, Bool.or_eq_false_iff] at hjs
    rw [update_jump_buffer_timer, preMove_eq]
    simp only [hjs.1, hjs.2, Bool.false_eq_true, if_false,
      stepTimersFacing_jump_buffer_timer, hjp]
    exact max_zero_sub _ _
  · -- jump hold, decremented
    intro hjs hd hc hha
    simp only [jumpStartsIn, Bool.or_eq_false_iff] at hjs
    rw [preMove_eq] at hd hc hha
    rw [update_eq, preMove_eq]
    simp only [stepLandingJump_jump_hold_timer, hjs.2, Bool.false_eq_true,
      if_false, stepDetach_jump_hold_timer, stepStick_jump_hold_timer,
      resolveAxisF_jump_hold_timer]
    rw [integrate_normal _ _ _ hd hc]
    simp only [hha, if_true]
    simp only [stepBufferedJump_jump_hold_timer, hjs.1, Bool.false_eq_true,
      if_false, stepWallKick_jump_hold_timer, stepDashStart_jump_hold_timer,
      stepTimersFacing_jump_hold_timer]
    exact max_zero_sub _ _
  · -- jump hold, untouched
    intro hjs hcase
    simp only [jumpStartsIn, Bool.or_eq_false_iff] at hjs
    rw [preMove_eq] at hcase
    rw [update_eq, preMove_eq]
    simp only [stepLandingJump_jump_hold_timer, hjs.2, Bool.false_eq_true,
      if_false, stepDetach_jump_hold_timer, stepStick_jump_hold_timer,
      resolveAxisF_jump_hold_timer]
    have hs4 : (stepBufferedJump (stepWallKick inp (stepDashStart inp
        (stepTimersFacing inp dt s)))).jump_hold_timer = s.jump_hold_timer := by
      simp only [stepBufferedJump_jump_hold_timer, hjs.1, Bool.false_eq_true,
        if_false, stepWallKick_jump_hold_timer, stepDashStart_jump_hold_timer,
        stepTimersFacing_jump_hold_timer]
    rcases hcase with hd | hc | hna
    · rw [integrate_dash _ _ _ hd]
      split_ifs <;> simpa using hs4
    · rcases hd : (stepBufferedJump (stepWallKick inp (stepDashStart inp
          (stepTimersFacing inp dt s)))).is_dashing with _ | _
      · rw [integrate_crouch _ _ _ hd hc]
        simpa using hs4
      · rw [integrate_dash _ _ _ hd]
        split_ifs <;> simpa using hs4
    · rcases hd : (stepBufferedJump (stepWallKick inp (stepDashStart inp
          (stepTimersFacing inp dt s)))).is_dashing with _ | _
      · rcases hc : (stepBufferedJump (stepWallKick inp (stepDashStart inp
            (stepTimersFacing inp dt s)))).is_wall_crouch with _ | _
        · rw [integrate_normal _ _ _ hd hc]
          simp only [hna, Bool.false_eq_true, if_false]
          simpa using hs4
        · rw [integrate_crouch _ _ _ hd hc]
          simpa using hs4
      · rw [integrate_dash _ _ _ hd]
        split_ifs <;> simpa using hs4
  · -- dash duration, dashing: decreases by exactly dt
    intro hpd
    rw [update_eq]
    simp only [stepLandingJump_dash_timer, stepDetach_dash_timer,
      stepStick_dash_timer, resolveAxisF_dash_timer]
    rw [integrate_dash _ _ _ hpd]
    split_ifs <;> rfl
  · -- dash duration, not dashing: untouched
    intro hpd
    have hnds : dashStarts inp (stepTimersFacing inp dt s) = false := by
      rw [preMove_eq] at hpd
      simp only [stepBufferedJump_is_dashing, stepWallKick_is_dashing,
        stepDashStart_is_dashing, stepTimersFacing_is_dashing,
        Bool.or_eq_false_iff] at hpd
      exact hpd.2
    rw [update_eq]
    simp only [stepLandingJump_dash_timer, stepDetach_dash_timer,
      stepStick_dash_timer, resolveAxisF_dash_timer]
    rcases hc : (preMove inp dt s).is_wall_crouch with _ | _
    · rw [integrate_normal _ _ _ hpd hc, preMove_eq]
      simp only [stepBufferedJump_dash_timer, stepWallKick_dash_timer,
        stepDashStart_dash_timer, hnds, Bool.false_eq_true, if_false,
        stepTimersFacing_dash_timer]
    · rw [integrate_crouch _ _ _ hpd hc, preMove_eq]
      simp only [stepBufferedJump_dash_timer, stepWallKick_dash_timer,
        stepDashStart_dash_timer, hnds, Bool.false_eq_true, if_false,
        stepTimersFacing_dash_timer]
  · -- dash cooldown non-negative
    rw [update_dash_cd]
    simp only [stepTimersFacing_dash_cd]
    split_ifs with ha hb
    · norm_num [DASH_COOLDOWN]
    · exact le_max_left (0 : ℝ) _
    · exact h1
  · -- wall-kick timer non-negative
    rw [update_wall_kick_timer]
    simp only [stepTimersFacing_wall_kick_timer]
    split_ifs with ha hb
    · norm_num [WALL_KICK_TIME]
    · exact le_max_left (0 : ℝ) _
    · exact h2
  · -- lockout non-negative
    rw [update_wall_kick_lockout]
    simp only [stepTimersFacing_wall_kick_lockout]
    split_ifs with ha hb
    · norm_num [WALL_KICK_LOCKOUT]
    · exact le_max_left (0 : ℝ) _
    · exact h3
  · -- coyote non-negative
    rw [update_coyote_timer]
    simp only [stepTimersFacing_coyote_timer]
    split_ifs with ha hb hc
    · exact le_rfl
    · exact le_rfl
    · norm_num [COYOTE_TIME]
    · exact le_max_left (0 : ℝ) _
  · -- buffer non-negative
    rw [update_jump_buffer_timer]
    simp only [stepTimersFacing_jump_buffer_timer]
    split_ifs with ha hb hc
    · exact le_rfl
    · exact le_rfl
    · norm_num [JUMP_BUFFER_TIME]
    · exact le_max_left (0 : ℝ) _
  · -- hold non-negative
    rw [update_eq]
    simp only [stepLandingJump_jump_hold_timer, stepDetach_jump_hold_timer,
      stepStick_jump_hold_timer, resolveAxisF_jump_hold_timer]
    split_ifs with ha
    · norm_num [JUMP_HOLD_TIME]
    · apply integrate_hold_nonneg
      rw [preMove_eq]
      simp only [stepBufferedJump_jump_hold_timer, stepWallKick_jump_hold_timer,
        stepDashStart_jump_hold_timer, stepTimersFacing_jump_hold_timer]
      split_ifs with hb
      · norm_num [JUMP_HOLD_TIME]
      · exact h6
  · -- dash duration bounded below by -dt
    rw [update_eq]
    simp only [stepLandingJump_dash_timer, stepDetach_dash_timer,
      stepStick_dash_timer, resolveAxisF_dash_timer]
    have hpt : 0 ≤ (preMove inp dt s).dash_timer :=
      preMove_dash_timer_nonneg inp dt s h7
    rcases hd : (preMove inp dt s).is_dashing with _ | _
    · rcases hc : (preMove inp dt s).is_wall_crouch with _ | _
      · rw [integrate_normal _ _ _ hd hc]
        simp only []
        linarith
      · rw [integrate_crouch _ _ _ hd hc]
        simp only []
        linarith
    · rw [integrate_dash _ _ _ hd]
      split_ifs
      · simp only []
        linarith
      · simp only []
        linarith

/-- C2, counterexample to the claim as stated: from a dashing state with
dash-duration timer 1/10 s and jump-hold timer 1/20 s, an update with
dt = 1/5 s leaves the dash-duration timer negative (−1/10, not clamped at
zero) and leaves the jump-hold timer untouched at 1/20 instead of
decrementing it by min(1/20, 1/5). -/
theorem C2_counterexample :
    (update [] inp0 (1/5) dashingState).dash_timer < 0 ∧
    (update [] inp0 (1/5) dashingState).jump_hold_timer
      ≠ 1/20 - min (1/20) (1/5) := by
  have hds : dashStarts inp0 (stepTimersFacing inp0 (1/5) dashingState)
      = false := by
    simp [dashStarts, inp0]
  have hpd : (preMove inp0 (1/5) dashingState).is_dashing = true := by
    rw [preMove_eq]
    simp only [stepBufferedJump_is_dashing, stepWallKick_is_dashing,
      stepDashStart_is_dashing, stepTimersFacing_is_dashing, hds,
      Bool.or_false]
    rfl
  have hpt : (preMove inp0 (1/5) dashingState).dash_timer = 1/10 := by
    rw [preMove_eq]
    simp only [stepBufferedJump_dash_timer, stepWallKick_dash_timer,
      stepDashStart_dash_timer, stepTimersFacing_dash_timer, hds,
      Bool.false_eq_true, if_false]
    rfl
  have hjb : jumpCondBuffered (stepWallKick inp0 (stepDashStart inp0
      (stepTimersFacing inp0 (1/5) dashingState))) = false := by
    norm_num [jumpCondBuffered, dashingState, initState, inp0, max_def]
  have hph : (preMove inp0 (1/5) dashingState).jump_hold_timer = 1/20 := by
    rw [preMove_eq]
    simp only [stepBufferedJump_jump_hold_timer, hjb, Bool.false_eq_true,
      if_false, stepWallKick_jump_hold_timer, stepDashStart_jump_hold_timer,
      stepTimersFacing_jump_hold_timer]
    rfl
  have hland : jumpCondLanding (stepDetach (stepStick (resolveAxis []
      (integrate inp0 (1/5) (preMove inp0 (1/5) dashingState)).1
      (integrate inp0 (1/5) (preMove inp0 (1/5) dashingState)).2.1
      (integrate inp0 (1/5) (preMove inp0 (1/5) dashingState)).2.2)))
      = false := by
    simp [jumpCondLanding, resolveAxis_on_ground]
  constructor
  · rw [update_eq]
    simp only [stepLandingJump_dash_timer, stepDetach_dash_timer,
      stepStick_dash_timer, resolveAxisF_dash_timer]
    rw [integrate_dash _ _ _ hpd]
    have hc : (preMove inp0 (1/5) dashingState).dash_timer - 1/5 ≤ 0 := by
      rw [hpt]
      norm_num
    rw [if_pos hc]
    show (preMove inp0 (1/5) dashingState).dash_timer - 1/5 < 0
    rw [hpt]
    norm_num
  · rw [update_eq]
    simp only [stepLandingJump_jump_hold_timer, hland, Bool.false_eq_true,
      if_false, stepDetach_jump_hold_timer, stepStick_jump_hold_timer,
      resolveAxisF_jump_hold_timer]
    rw [integrate_dash _ _ _ hpd]
    split_ifs
    · show (preMove inp0 (1/5) dashingState).jump_hold_timer
        ≠ 1/20 - min (1/20) (1/5)
      rw [hph]
      norm_num [min_def]
    · show (preMove inp0 (1/5) dashingState).jump_hold_timer
        ≠ 1/20 - min (1/20) (1/5)
      rw [hph]
      norm_num [min_def]

/-- C2 witness: the amended theorem applied at a concrete state and dt,
yielding non-negativity of the clamped timers after the update. -/
theorem C2_witness :
    0 ≤ (update [] inp0 (1/60) (initState 0 0)).dash_cd ∧
    0 ≤ (update [] inp0 (1/60) (initState 0 0)).jump_hold_timer := by
  have h := C2_timer_decrement [] inp0 (1/60) (initState 0 0) (by norm_num)
    (by simp [initState]) (by simp [initState]) (by simp [initState])
    (by simp [initState]) (by simp [initState]) (by simp [initState])
    (by simp [initState])
  have hn := h.2.2.2.2.2.2.2.2
  exact ⟨hn.1, hn.2.2.2.2.2.1⟩

/-! ## Claim C4 -/

section SizeFrames

variable (inp : MovementInput) (dt : ℝ) (s : MState ℝ)

@[simp] theorem stepTimersFacing_w : (stepTimersFacing inp dt s).w = s.w := rfl

@[simp] theorem stepTimersFacing_h : (stepTimersFacing inp dt s).h = s.h := rfl

@[simp] theorem stepDashStart_w : (stepDashStart inp s).w = s.w := by
  unfold stepDashStart; split <;> rfl

@[simp] theorem stepDashStart_h : (stepDashStart inp s).h = s.h := by
  unfold stepDashStart; split <;> rfl

@[simp] theorem stepWallKick_w : (stepWallKick inp s).w = s.w := by
  unfold stepWallKick; split <;> rfl

@[simp] theorem stepWallKick_h : (stepWallKick inp s).h = s.h := by
  unfold stepWallKick; split <;> rfl

@[simp] theorem stepBufferedJump_w : (stepBufferedJump s).w = s.w := by
  unfold stepBufferedJump; split <;> rfl

@[simp] theorem stepBufferedJump_h : (stepBufferedJump s).h = s.h := by
  unfold stepBufferedJump; split <;> rfl

@[simp] theorem integrate_w : (integrate inp dt s).1.w = s.w := by
  unfold integrate; split_ifs <;> rfl

@[simp] theorem integrate_h : (integrate inp dt s).1.h = s.h := by
  unfold integrate; split_ifs <;> rfl

end SizeFrames

/-- C4, amended: the pre-collision jump site (line 144) fires iff, in
pre-state terms, the buffer is live (fresh press or remaining buffer
exceeding dt), the coyote window is live (grounded last frame or remaining
coyote exceeding dt), and the character is not wall-crouched (or the
simultaneous wall kick just cleared the crouch); a jump starts in the
update iff that site fires or the landing site (line 209) fires — grounded
after collision with a live buffer and no pre-collision jump — which
requires no coyote time.  `_start_jump` sets `vy := -JUMP_SPEED`, the hold
timer to its max, and zeroes buffer and coyote. -/
theorem C4_jump_start (solids : List Rect) (inp : MovementInput) (dt : ℝ)
    (s : MState ℝ) (hdt : 0 ≤ dt) :
    (jumpCondBuffered (stepWallKick inp (stepDashStart inp
        (stepTimersFacing inp dt s))) = true ↔
      ((inp.jump_pressed = true ∨ dt < s.jump_buffer_timer) ∧
       (s.on_ground = true ∨ dt < s.coyote_timer) ∧
       (s.is_wall_crouch = false ∨
         (inp.jump_pressed = true ∧ s.wall_kick_lockout ≤ dt)))) ∧
    (jumpStartsIn solids inp dt s = true ↔
      (jumpCondBuffered (stepWallKick inp (stepDashStart inp
          (stepTimersFacing inp dt s))) = true ∨
       (jumpCondBuffered (stepWallKick inp (stepDashStart inp
          (stepTimersFacing inp dt s))) = false ∧
        (stepDetach (stepStick (resolveAxis solids
          (integrate inp dt (stepBufferedJump (stepWallKick inp
            (stepDashStart inp (stepTimersFacing inp dt s))))).1
          (integrate inp dt (stepBufferedJump (stepWallKick inp
            (stepDashStart inp (stepTimersFacing inp dt s))))).2.1
          (integrate inp dt (stepBufferedJump (stepWallKick inp
            (stepDashStart inp (stepTimersFacing inp dt s))))).2.2))).on_ground
          = true ∧
        (inp.jump_pressed = true ∨ dt < s.jump_buffer_timer)))) ∧
    (∀ t : MState ℝ, (startJump t).vy = -JUMP_SPEED ∧
      (startJump t).jump_hold_timer = JUMP_HOLD_TIME ∧
      (startJump t).jump_buffer_timer = 0 ∧ (startJump t).coyote_timer = 0) := by
  have hbuf : (0 < (if inp.jump_pressed = true then JUMP_BUFFER_TIME
      else max 0 (s.jump_buffer_timer - dt))) ↔
      (inp.jump_pressed = true ∨ dt < s.jump_buffer_timer) := by
    split_ifs with hp
    · simp only [hp, true_or, iff_true]
      norm_num [JUMP_BUFFER_TIME]
    · simp [hp, lt_max_iff, sub_pos]
  have hcoy : (0 < (if s.on_ground = true then COYOTE_TIME
      else max 0 (s.coyote_timer - dt))) ↔
      (s.on_ground = true ∨ dt < s.coyote_timer) := by
    split_ifs with hg
    · simp only [hg, true_or, iff_true]
      norm_num [COYOTE_TIME]
    · simp [hg, lt_max_iff, sub_pos]
  have hlock : ((if 0 < s.wall_kick_lockout
      then max 0 (s.wall_kick_lockout - dt) else s.wall_kick_lockout) ≤ 0)
      ↔ s.wall_kick_lockout ≤ dt := by
    split_ifs with hpos
    · simp [max_le_iff, sub_nonpos]
    · constructor
      · intro h
        linarith
      · intro h
        linarith [not_lt.mp hpos]
  have hcrouch : ((stepWallKick inp (stepDashStart inp
        (stepTimersFacing inp dt s))).is_wall_crouch = false) ↔
      (s.is_wall_crouch = false ∨
        (inp.jump_pressed = true ∧ s.wall_kick_lockout ≤ dt)) := by
    simp only [stepWallKick_is_wall_crouch, stepDashStart_is_wall_crouch,
      stepTimersFacing_is_wall_crouch, wallKicks,
      stepDashStart_wall_kick_lockout, stepTimersFacing_wall_kick_lockout]
    cases hcc : s.is_wall_crouch
    · simp
    · simp [hlock]
  have site1 : jumpCondBuffered (stepWallKick inp (stepDashStart inp
      (stepTimersFacing inp dt s))) = true ↔
      ((inp.jump_pressed = true ∨ dt < s.jump_buffer_timer) ∧
       (s.on_ground = true ∨ dt < s.coyote_timer) ∧
       (s.is_wall_crouch = false ∨
         (inp.jump_pressed = true ∧ s.wall_kick_lockout ≤ dt))) := by
    simp only [jumpCondBuffered, Bool.and_eq_true, decide_eq_true_eq,
      Bool.not_eq_true', stepWallKick_jump_buffer_timer,
      stepDashStart_jump_buffer_timer, stepTimersFacing_jump_buffer_timer,
      stepWallKick_coyote_timer, stepDashStart_coyote_timer,
      stepTimersFacing_coyote_timer]
    rw [and_assoc, hbuf, hcoy, hcrouch]
  refine ⟨site1, ?_, fun t => ⟨rfl, rfl, rfl, rfl⟩⟩
  simp only [jumpStartsIn, Bool.or_eq_true]
  by_cases hc1 : jumpCondBuffered (stepWallKick inp (stepDashStart inp
      (stepTimersFacing inp dt s))) = true
  · simp [hc1]
  · have hc1' : jumpCondBuffered (stepWallKick inp (stepDashStart inp
        (stepTimersFacing inp dt s))) = false := by
      simpa using hc1
    simp only [hc1', Bool.false_eq_true, false_or, true_and,
      not_false_iff]
    simp only [jumpCondLanding, Bool.and_eq_true, decide_eq_true_eq,
      stepDetach_jump_buffer_timer, stepStick_jump_buffer_timer,
      resolveAxisF_jump_buffer_timer, integrate_jump_buffer_timer,
      stepBufferedJump_jump_buffer_timer, hc1', Bool.false_eq_true, if_false,
      stepWallKick_jump_buffer_timer, stepDashStart_jump_buffer_timer,
      stepTimersFacing_jump_buffer_timer]
    rw [hbuf]

/-- C4, counterexample to the claim as stated: falling onto a tile with a
fresh jump press but a coyote timer that is `0` (and stays `0` through the
timer phase), a jump still starts in the update — at the landing site
(player_movement.py, line 209), which does not consult the coyote timer. -/
theorem C4_counterexample :
    jumpStartsIn [⟨0, 32, 64, 64⟩] jumpInp (1/10) (initState 0 0) = true ∧
    (initState (0:ℝ) 0).coyote_timer = 0 ∧
    (stepTimersFacing jumpInp (1/10) (initState 0 0)).coyote_timer = 0 := by
  have hds : dashStarts jumpInp (stepTimersFacing jumpInp (1/10)
      (initState 0 0)) = false := by
    simp [dashStarts, jumpInp]
  have hwk : wallKicks jumpInp (stepDashStart jumpInp
      (stepTimersFacing jumpInp (1/10) (initState 0 0))) = false := by
    simp [wallKicks, initState]
  have hjb : jumpCondBuffered (stepWallKick jumpInp (stepDashStart jumpInp
      (stepTimersFacing jumpInp (1/10) (initState 0 0)))) = false := by
    norm_num [jumpCondBuffered, initState, jumpInp, max_def]
  have hp : preMove jumpInp (1/10) (initState 0 0)
      = { initState 0 0 with jump_buffer_timer := JUMP_BUFFER_TIME } := by
    rw [preMove_eq, stepBufferedJump_not _ hjb, stepWallKick_not _ _ hwk,
      stepDashStart_not _ _ hds]
    norm_num [stepTimersFacing, initState, jumpInp, max_def]
  have hcl : clampSpeed 0 (222/25) = (0, 222/25) :=
    clampSpeed_eq_self 0 (222/25) (by norm_num [MAX_SPEED])
  have h1 : normalVx jumpInp (1/10)
      ({ initState 0 0 with
          jump_buffer_timer := JUMP_BUFFER_TIME } : MState ℝ) = 0 := by
    norm_num [normalVx, jumpInp, initState]
  have h2 : normalVy jumpInp (1/10)
      ({ initState 0 0 with
          jump_buffer_timer := JUMP_BUFFER_TIME } : MState ℝ) = 12 := by
    norm_num [normalVy, holdActiveB, jumpInp, initState, SINK_ACCEL]
  have h3 : dragStep (0:ℝ) (1/10) = 0 := by norm_num [dragStep]
  have h4 : dragStep (12:ℝ) (1/10) = 222/25 := by norm_num [dragStep, DRAG]
  have hint : integrate jumpInp (1/10)
      ({ initState 0 0 with
          jump_buffer_timer := JUMP_BUFFER_TIME } : MState ℝ)
      = ({ initState 0 0 with
            jump_buffer_timer := JUMP_BUFFER_TIME
            vy := 222/25 },
         0, 111/125) := by
    rw [integrate_normal _ _ _ rfl rfl, h1, h2, h3, h4, hcl]
    norm_num [holdActiveB, jumpInp, initState, MState.mk.injEq,
      Prod.ext_iff]
  have hgf : groundFlag [(⟨0, 32, 64, 64⟩ : Rect)]
      ({ initState 0 0 with
          jump_buffer_timer := JUMP_BUFFER_TIME
          vy := 222/25 } : MState ℝ) 0 (111/125) = true := by
    norm_num [groundFlag, sweepY, resolvedX, toInt, collide, initState]
  refine ⟨?_, rfl, by norm_num [stepTimersFacing, initState, max_def]⟩
  simp only [jumpStartsIn]
  rw [Bool.or_eq_true]
  right
  rw [← preMove_eq, hp, hint]
  simp only [jumpCondLanding, Bool.and_eq_true, decide_eq_true_eq,
    stepDetach_on_ground, stepStick_on_ground, stepDetach_jump_buffer_timer,
    stepStick_jump_buffer_timer, resolveAxisF_jump_buffer_timer,
    resolveAxis_on_ground, hgf]
  norm_num [JUMP_BUFFER_TIME]

/-- C4 witness: the amended theorem at a concrete input (no tiles, a fresh
jump press, dt = 1, the initial state at the origin): among its
conclusions, `_start_jump` always writes `vy = -JUMP_SPEED`. -/
theorem C4_witness :
    (0:ℝ) ≤ 1 ∧
    (startJump (initState (0:ℝ) 0)).vy = -JUMP_SPEED :=
  ⟨by norm_num,
    ((C4_jump_start [] jumpInp 1 (initState 0 0)
      (by norm_num)).2.2 (initState 0 0)).1⟩

/-! ## Claim C5 -/

theorem normalVy_neg (inp : MovementInput) (dt : ℝ) (s : MState ℝ)
    (hdt : 0 ≤ dt)
    (h1 : s.vy + inp.y * ACCEL * dt < 0)
    (h2 : s.vy + inp.y * ACCEL * dt + SINK_ACCEL * dt < 0) :
    normalVy inp dt s < 0 := by
  have hJH : (0:ℝ) ≤ JUMP_HOLD_ACCEL * dt :=
    mul_nonneg (by norm_num [JUMP_HOLD_ACCEL]) hdt
  have hJC : (0:ℝ) < JUMP_CUT_MULT := by norm_num [JUMP_CUT_MULT]
  have hv2 : (if s.on_ground = true then min (s.vy + inp.y * ACCEL * dt) 0
      else s.vy + inp.y * ACCEL * dt + SINK_ACCEL * dt) < 0 := by
    split_ifs
    · exact lt_of_le_of_lt (min_le_left _ _) h1
    · exact h2
  simp only [normalVy]
  generalize hw : (if s.on_ground = true then min (s.vy + inp.y * ACCEL * dt) 0
      else s.vy + inp.y * ACCEL * dt + SINK_ACCEL * dt) = w
  have hwneg : w < 0 := hw ▸ hv2
  split_ifs
  · linarith
  · exact mul_neg_of_neg_of_pos hwneg hJC
  · exact hwneg

/-- C5, amended: from a wall-crouch state clinging on the right
(`stick_side = 1`, lockout `0`, not dashing), one update with
`jump_pressed`, input magnitudes at most 1 and `0 < dt < 3/17` yields
`vx < 0` and `vy < 0`, leaves wall-crouch off with the lockout at its
maximum; and from any non-crouched state whose lockout is still positive
after the frame's timer decrement, an update cannot turn wall-crouch on,
whatever the wall flags. -/
theorem C5_wall_kick (solids : List Rect) (inp : MovementInput) (dt : ℝ)
    (s : MState ℝ)
    (hc : s.is_wall_crouch = true) (hss : s.stick_side = 1)
    (hlk : s.wall_kick_lockout = 0) (hd : s.is_dashing = false)
    (hjp : inp.jump_pressed = true)
    (hx : |inp.x| ≤ 1) (hy : |inp.y| ≤ 1)
    (hdt0 : 0 < dt) (hdt1 : dt < 3/17) :
    (update solids inp dt s).vx < 0 ∧
    (update solids inp dt s).vy < 0 ∧
    (update solids inp dt s).is_wall_crouch = false ∧
    (update solids inp dt s).wall_kick_lockout = WALL_KICK_LOCKOUT ∧
    (∀ (solids2 : List Rect) (inp2 : MovementInput) (dt2 : ℝ)
        (t : MState ℝ), t.is_wall_crouch = false →
      0 < (stepTimersFacing inp2 dt2 t).wall_kick_lockout →
      (update solids2 inp2 dt2 t).is_wall_crouch = false) := by
  have hA : ACCEL = (900:ℝ) := by norm_num [ACCEL]
  have hS : SINK_ACCEL = (120:ℝ) := by norm_num [SINK_ACCEL]
  have hXc : WALL_KICK_SPEED_X = (260:ℝ) := by norm_num [WALL_KICK_SPEED_X]
  have hD : DRAG = (26/10:ℝ) := by norm_num [DRAG]
  have hds : dashStarts inp (stepTimersFacing inp dt s) = false := by
    simp [dashStarts, hc]
  have hwkt : wallKicks inp (stepDashStart inp (stepTimersFacing inp dt s))
      = true := by
    simp [wallKicks, hc, hjp, hlk]
  have hkd : kickDir (stepDashStart inp (stepTimersFacing inp dt s))
      = -1 := by
    simp [kickDir, hss]
  have hpvx : (preMove inp dt s).vx = -WALL_KICK_SPEED_X := by
    rw [preMove_eq]
    simp [stepBufferedJump_vx, stepWallKick_vx, hwkt, hkd]
  have hpvy : (preMove inp dt s).vy ≤ -180 := by
    rw [preMove_eq]
    simp only [stepBufferedJump_vy, stepWallKick_vy, hwkt, if_true]
    split_ifs
    · norm_num [JUMP_SPEED]
    · norm_num [WALL_KICK_SPEED_Y]
  have hpd : (preMove inp dt s).is_dashing = false := by
    rw [preMove_eq]
    simp [hds, hd]
  have hpc : (preMove inp dt s).is_wall_crouch = false := by
    rw [preMove_eq]
    simp [hwkt]
  have hplk : (preMove inp dt s).wall_kick_lockout = WALL_KICK_LOCKOUT := by
    rw [preMove_eq]
    simp [hwkt]
  have hxd : inp.x * ACCEL * dt ≤ 900 * dt := by
    rw [hA, mul_assoc]
    calc inp.x * (900 * dt) ≤ 1 * (900 * dt) :=
          mul_le_mul_of_nonneg_right (abs_le.mp hx).2 (by linarith)
      _ = 900 * dt := one_mul _
  have hyd : inp.y * ACCEL * dt ≤ 900 * dt := by
    rw [hA, mul_assoc]
    calc inp.y * (900 * dt) ≤ 1 * (900 * dt) :=
          mul_le_mul_of_nonneg_right (abs_le.mp hy).2 (by linarith)
      _ = 900 * dt := one_mul _
  have hnx : normalVx inp dt (preMove inp dt s) < 0 := by
    simp only [normalVx, hpvx, hXc]
    linarith
  have hvy1 : (preMove inp dt s).vy + inp.y * ACCEL * dt < 0 := by
    linarith
  have hvy2 : (preMove inp dt s).vy + inp.y * ACCEL * dt
      + SINK_ACCEL * dt < 0 := by
    rw [hS]
    linarith
  have hny : normalVy inp dt (preMove inp dt s) < 0 :=
    normalVy_neg inp dt _ (le_of_lt hdt0) hvy1 hvy2
  have hfac : 0 < 1 - DRAG * dt := by
    rw [hD]
    linarith
  have hdx : dragStep (normalVx inp dt (preMove inp dt s)) dt < 0 := by
    have he : dragStep (normalVx inp dt (preMove inp dt s)) dt
        = normalVx inp dt (preMove inp dt s) * (1 - DRAG * dt) := by
      simp only [dragStep]
      ring
    rw [he]
    exact mul_neg_of_neg_of_pos hnx hfac
  have hdy : dragStep (normalVy inp dt (preMove inp dt s)) dt < 0 := by
    have he : dragStep (normalVy inp dt (preMove inp dt s)) dt
        = normalVy inp dt (preMove inp dt s) * (1 - DRAG * dt) := by
      simp only [dragStep]
      ring
    rw [he]
    exact mul_neg_of_neg_of_pos hny hfac
  have hV1 : (clampSpeed (dragStep (normalVx inp dt (preMove inp dt s)) dt)
      (dragStep (normalVy inp dt (preMove inp dt s)) dt)).1 < 0 :=
    clampSpeed_neg_fst _ _ hdx
  have hV2 : (clampSpeed (dragStep (normalVx inp dt (preMove inp dt s)) dt)
      (dragStep (normalVy inp dt (preMove inp dt s)) dt)).2 < 0 :=
    clampSpeed_neg_snd _ _ hdy
  have hM := integrate_normal inp dt (preMove inp dt s) hpd hpc
  have hm22 : (integrate inp dt (preMove inp dt s)).2.2 < 0 := by
    rw [hM]
    exact mul_neg_of_neg_of_pos hV2 hdt0
  have hm1vx : (integrate inp dt (preMove inp dt s)).1.vx
      = (clampSpeed (dragStep (normalVx inp dt (preMove inp dt s)) dt)
          (dragStep (normalVy inp dt (preMove inp dt s)) dt)).1 := by
    rw [hM]
  have hm1vy : (integrate inp dt (preMove inp dt s)).1.vy
      = (clampSpeed (dragStep (normalVx inp dt (preMove inp dt s)) dt)
          (dragStep (normalVy inp dt (preMove inp dt s)) dt)).2 := by
    rw [hM]
  have hrog : (resolveAxis solids (integrate inp dt (preMove inp dt s)).1
      (integrate inp dt (preMove inp dt s)).2.1
      (integrate inp dt (preMove inp dt s)).2.2).on_ground = false := by
    rw [resolveAxis_on_ground]
    exact groundFlag_nonpos _ _ _ _ (ne_of_lt hm22) (le_of_lt hm22)
  have hrlk : (resolveAxis solids (integrate inp dt (preMove inp dt s)).1
      (integrate inp dt (preMove inp dt s)).2.1
      (integrate inp dt (preMove inp dt s)).2.2).wall_kick_lockout
      = WALL_KICK_LOCKOUT := by
    rw [resolveAxisF_wall_kick_lockout, integrate_wall_kick_lockout, hplk]
  have hsc : stickCond (resolveAxis solids
      (integrate inp dt (preMove inp dt s)).1
      (integrate inp dt (preMove inp dt s)).2.1
      (integrate inp dt (preMove inp dt s)).2.2) = false := by
    simp only [stickCond, hrlk]
    norm_num [WALL_KICK_LOCKOUT]
  have hrvy : (resolveAxis solids (integrate inp dt (preMove inp dt s)).1
      (integrate inp dt (preMove inp dt s)).2.1
      (integrate inp dt (preMove inp dt s)).2.2).vy
      = (integrate inp dt (preMove inp dt s)).1.vy := by
    rw [resolveAxis_vy, hrog]
    simp
  have hlnd : jumpCondLanding (stepDetach (resolveAxis solids
      (integrate inp dt (preMove inp dt s)).1
      (integrate inp dt (preMove inp dt s)).2.1
      (integrate inp dt (preMove inp dt s)).2.2)) = false := by
    simp [jumpCondLanding, hrog]
  rw [update_eq, stepStick_not _ hsc, stepLandingJump_not _ hlnd]
  refine ⟨?_, ?_, ?_, ?_, ?_⟩
  · rw [stepDetach_vx, resolveAxisF_vx, hm1vx]
    exact hV1
  · rw [stepDetach_vy, hrvy, hm1vy]
    exact hV2
  · simp only [stepDetach_is_wall_crouch, resolveAxisF_is_wall_crouch,
      integrate_is_wall_crouch, hpc]
    simp
  · rw [stepDetach_wall_kick_lockout, hrlk]
  · intro solids2 inp2 dt2 t htc hlk2
    have hwk2 : wallKicks inp2 (stepDashStart inp2
        (stepTimersFacing inp2 dt2 t)) = false := by
      simp [wallKicks, htc]
    have hlk3 : (preMove inp2 dt2 t).wall_kick_lockout
        = (stepTimersFacing inp2 dt2 t).wall_kick_lockout := by
      rw [preMove_eq]
      simp [hwk2]
    have hsc2 : stickCond (resolveAxis solids2
        (integrate inp2 dt2 (preMove inp2 dt2 t)).1
        (integrate inp2 dt2 (preMove inp2 dt2 t)).2.1
        (integrate inp2 dt2 (preMove inp2 dt2 t)).2.2) = false := by
      have hn : ¬ ((stepTimersFacing inp2 dt2 t).wall_kick_lockout ≤ 0) :=
        not_le.mpr hlk2
      simp only [stepTimersFacing_wall_kick_lockout] at hn
      simp only [stickCond, resolveAxisF_wall_kick_lockout,
        integrate_wall_kick_lockout, hlk3, stepTimersFacing_wall_kick_lockout]
      simp [hn]
    rw [update_eq, stepStick_not _ hsc2]
    simp only [stepLandingJump_is_wall_crouch, stepDetach_is_wall_crouch,
      resolveAxisF_is_wall_crouch, integrate_is_wall_crouch]
    rw [preMove_eq]
    simp [hwk2, htc]

/-- C5, counterexample to the claim as stated: with dt = 1 the drag factor
`1 - DRAG*dt = -1.6` flips the sign of the kicked velocity, so one update
from the right-cling state with a fresh jump press ends with `vx > 0`, not
`vx < 0` — the claim holds only for small enough dt. -/
theorem C5_counterexample :
    0 < (update [] jumpInp 1 kickState).vx := by
  have hst : stepTimersFacing jumpInp 1 kickState
      = { kickState with jump_buffer_timer := JUMP_BUFFER_TIME } := by
    norm_num [stepTimersFacing, kickState, initState, jumpInp, max_def]
  have hds : dashStarts jumpInp
      ({ kickState with jump_buffer_timer := JUMP_BUFFER_TIME } : MState ℝ)
      = false := by
    simp [dashStarts, jumpInp]
  have hwkt : wallKicks jumpInp
      ({ kickState with jump_buffer_timer := JUMP_BUFFER_TIME } : MState ℝ)
      = true := by
    norm_num [wallKicks, kickState, initState, jumpInp]
  have hjb2 : jumpCondBuffered (stepWallKick jumpInp (stepDashStart jumpInp
      (stepTimersFacing jumpInp 1 kickState))) = false := by
    rw [hst, stepDashStart_not _ _ hds]
    norm_num [jumpCondBuffered, kickState, initState]
  have hp : preMove jumpInp 1 kickState
      = { kickState with
          is_wall_crouch := false
          stick_side := 0
          wall_kick_timer := WALL_KICK_TIME
          wall_kick_lockout := WALL_KICK_LOCKOUT
          vx := -260
          vy := -180
          jump_buffer_timer := JUMP_BUFFER_TIME } := by
    rw [preMove_eq, stepBufferedJump_not _ hjb2, hst,
      stepDashStart_not _ _ hds, stepWallKick_fire _ _ hwkt]
    norm_num [kickDir, kickState, initState,
      WALL_KICK_SPEED_X, WALL_KICK_SPEED_Y, MState.mk.injEq]
  have h1 : normalVx jumpInp 1
      ({ kickState with
          is_wall_crouch := false
          stick_side := 0
          wall_kick_timer := WALL_KICK_TIME
          wall_kick_lockout := WALL_KICK_LOCKOUT
          vx := -260
          vy := -180
          jump_buffer_timer := JUMP_BUFFER_TIME } : MState ℝ) = -260 := by
    norm_num [normalVx, jumpInp]
  have h2 : normalVy jumpInp 1
      ({ kickState with
          is_wall_crouch := false
          stick_side := 0
          wall_kick_timer := WALL_KICK_TIME
          wall_kick_lockout := WALL_KICK_LOCKOUT
          vx := -260
          vy := -180
          jump_buffer_timer := JUMP_BUFFER_TIME } : MState ℝ) = -60 := by
    norm_num [normalVy, holdActiveB, jumpInp, kickState, initState,
      SINK_ACCEL]
  have h3 : dragStep (-260:ℝ) 1 = 416 := by norm_num [dragStep, DRAG]
  have h4 : dragStep (-60:ℝ) 1 = 96 := by norm_num [dragStep, DRAG]
  have hsc : stickCond (resolveAxis []
      (integrate jumpInp 1 (preMove jumpInp 1 kickState)).1
      (integrate jumpInp 1 (preMove jumpInp 1 kickState)).2.1
      (integrate jumpInp 1 (preMove jumpInp 1 kickState)).2.2) = false := by
    simp [stickCond, resolveAxis_wall_left, resolveAxis_wall_right]
  have hlnd : jumpCondLanding (stepDetach (resolveAxis []
      (integrate jumpInp 1 (preMove jumpInp 1 kickState)).1
      (integrate jumpInp 1 (preMove jumpInp 1 kickState)).2.1
      (integrate jumpInp 1 (preMove jumpInp 1 kickState)).2.2)) = false := by
    simp [jumpCondLanding, resolveAxis_on_ground]
  rw [update_eq, stepStick_not _ hsc, stepLandingJump_not _ hlnd]
  rw [stepDetach_vx, resolveAxisF_vx]
  rw [hp, integrate_normal _ _ _ rfl rfl]
  simp only [h1, h2, h3, h4]
  show 0 < (clampSpeed 416 96).1
  exact clampSpeed_pos_fst 416 96 (by norm_num)

/-- C5 witness: the amended theorem at a concrete input — empty level,
fresh jump press, dt = 1/10, the right-cling state: the update ends with
`vx < 0` and wall-crouch off. -/
theorem C5_witness :
    (update [] jumpInp (1/10) kickState).vx < 0 ∧
    (update [] jumpInp (1/10) kickState).is_wall_crouch = false := by
  have h := C5_wall_kick [] jumpInp (1/10) kickState rfl rfl rfl rfl rfl
    (by norm_num [jumpInp]) (by norm_num [jumpInp]) (by norm_num)
    (by norm_num)
  exact ⟨h.1, h.2.2.1⟩

/-! ## Claim C7 -/

theorem airborneFree_initState (x y : ℝ) : airborneFree (initState x y) :=
  ⟨rfl, rfl, rfl, rfl, le_refl 0⟩

theorem update_free_step (dt : ℝ) (s : MState ℝ) (hdt0 : 0 < dt)
    (hdt1 : dt < 5/13) (h : airborneFree s) :
    airborneFree (update [] rightInp dt s) ∧
    0 < (update [] rightInp dt s).vy ∧
    (update [] rightInp dt s).vx ^ 2 + (update [] rightInp dt s).vy ^ 2
      ≤ MAX_SPEED ^ 2 := by
  obtain ⟨hd, hcf, hog, hbuf, hvy⟩ := h
  have hds : dashStarts rightInp (stepTimersFacing rightInp dt s)
      = false := by
    simp [dashStarts, rightInp]
  have hwk : wallKicks rightInp (stepDashStart rightInp
      (stepTimersFacing rightInp dt s)) = false := by
    simp [wallKicks, hcf]
  have hb0 : (stepTimersFacing rightInp dt s).jump_buffer_timer = 0 := by
    simp only [stepTimersFacing_jump_buffer_timer]
    rw [if_neg (by simp [rightInp]), hbuf]
    exact max_eq_left (by linarith)
  have hnb : ¬ (0 < (stepTimersFacing rightInp dt s).jump_buffer_timer) := by
    rw [hb0]
    exact lt_irrefl 0
  have hjb : jumpCondBuffered (stepWallKick rightInp (stepDashStart rightInp
      (stepTimersFacing rightInp dt s))) = false := by
    simp only [jumpCondBuffered, stepWallKick_jump_buffer_timer,
      stepDashStart_jump_buffer_timer]
    rw [decide_eq_false hnb, Bool.false_and, Bool.false_and]
  have hpeq : preMove rightInp dt s = stepTimersFacing rightInp dt s := by
    rw [preMove_eq, stepBufferedJump_not _ hjb, stepWallKick_not _ _ hwk,
      stepDashStart_not _ _ hds]
  have hpd : (stepTimersFacing rightInp dt s).is_dashing = false := hd
  have hpc : (stepTimersFacing rightInp dt s).is_wall_crouch = false := hcf
  have hM := integrate_normal rightInp dt (stepTimersFacing rightInp dt s)
    hpd hpc
  have hny : 0 < normalVy rightInp dt (stepTimersFacing rightInp dt s) := by
    simp only [normalVy, holdActiveB, stepTimersFacing_vy,
      stepTimersFacing_on_ground, stepTimersFacing_jump_hold_timer, hog]
    norm_num [rightInp, SINK_ACCEL]
    linarith
  have hfac : 0 < 1 - DRAG * dt := by
    have hD : DRAG = (26/10:ℝ) := by norm_num [DRAG]
    rw [hD]
    linarith
  have hdy : 0 < dragStep (normalVy rightInp dt
      (stepTimersFacing rightInp dt s)) dt := by
    have he : dragStep (normalVy rightInp dt
        (stepTimersFacing rightInp dt s)) dt
        = normalVy rightInp dt (stepTimersFacing rightInp dt s)
          * (1 - DRAG * dt) := by
      simp only [dragStep]
      ring
    rw [he]
    exact mul_pos hny hfac
  have hV2 : 0 < (clampSpeed
      (dragStep (normalVx rightInp dt (stepTimersFacing rightInp dt s)) dt)
      (dragStep (normalVy rightInp dt (stepTimersFacing rightInp dt s)) dt)).2
      := clampSpeed_pos_snd _ _ hdy
  have hnorm := clampSpeed_norm_le
    (dragStep (normalVx rightInp dt (stepTimersFacing rightInp dt s)) dt)
    (dragStep (normalVy rightInp dt (stepTimersFacing rightInp dt s)) dt)
  have hm1d : (integrate rightInp dt (preMove rightInp dt s)).1.is_dashing
      = false := by
    rw [hpeq, hM]
    exact hd
  have hm1c : (integrate rightInp dt
      (preMove rightInp dt s)).1.is_wall_crouch = false := by
    rw [hpeq, hM]
    exact hcf
  have hm1b : (integrate rightInp dt
      (preMove rightInp dt s)).1.jump_buffer_timer = 0 := by
    rw [hpeq, hM]
    exact hb0
  have hm1vx : (integrate rightInp dt (preMove rightInp dt s)).1.vx
      = (clampSpeed
      (dragStep (normalVx rightInp dt (stepTimersFacing rightInp dt s)) dt)
      (dragStep (normalVy rightInp dt (stepTimersFacing rightInp dt s)) dt)).1
      := by
    rw [hpeq, hM]
  have hm1vy : (integrate rightInp dt (preMove rightInp dt s)).1.vy
      = (clampSpeed
      (dragStep (normalVx rightInp dt (stepTimersFacing rightInp dt s)) dt)
      (dragStep (normalVy rightInp dt (stepTimersFacing rightInp dt s)) dt)).2
      := by
    rw [hpeq, hM]
  have hsc : stickCond (resolveAxis []
      (integrate rightInp dt (preMove rightInp dt s)).1
      (integrate rightInp dt (preMove rightInp dt s)).2.1
      (integrate rightInp dt (preMove rightInp dt s)).2.2) = false := by
    simp [stickCond, resolveAxis_wall_left, resolveAxis_wall_right]
  have hlnd : jumpCondLanding (stepDetach (resolveAxis []
      (integrate rightInp dt (preMove rightInp dt s)).1
      (integrate rightInp dt (preMove rightInp dt s)).2.1
      (integrate rightInp dt (preMove rightInp dt s)).2.2)) = false := by
    simp [jumpCondLanding, resolveAxis_on_ground]
  rw [update_eq, stepStick_not _ hsc, stepLandingJump_not _ hlnd]
  have hvyfin : (stepDetach (resolveAxis []
      (integrate rightInp dt (preMove rightInp dt s)).1
      (integrate rightInp dt (preMove rightInp dt s)).2.1
      (integrate rightInp dt (preMove rightInp dt s)).2.2)).vy
      = (clampSpeed
      (dragStep (normalVx rightInp dt (stepTimersFacing rightInp dt s)) dt)
      (dragStep (normalVy rightInp dt (stepTimersFacing rightInp dt s)) dt)).2
      := by
    rw [stepDetach_vy, resolveAxis_vy, resolveAxis_on_ground]
    simp only [groundFlag_nil, Bool.false_eq_true, if_false]
    exact hm1vy
  have hvxfin : (stepDetach (resolveAxis []
      (integrate rightInp dt (preMove rightInp dt s)).1
      (integrate rightInp dt (preMove rightInp dt s)).2.1
      (integrate rightInp dt (preMove rightInp dt s)).2.2)).vx
      = (clampSpeed
      (dragStep (normalVx rightInp dt (stepTimersFacing rightInp dt s)) dt)
      (dragStep (normalVy rightInp dt (stepTimersFacing rightInp dt s)) dt)).1
      := by
    rw [stepDetach_vx, resolveAxisF_vx]
    exact hm1vx
  refine ⟨⟨?_, ?_, ?_, ?_, ?_⟩, ?_, ?_⟩
  · rw [stepDetach_is_dashing, resolveAxisF_is_dashing, hm1d]
  · have hpc2 : (preMove rightInp dt s).is_wall_crouch = false := by
      rw [hpeq]
      exact hcf
    simp [stepDetach_is_wall_crouch, resolveAxisF_is_wall_crouch,
      integrate_is_wall_crouch, hpc2]
  · rw [stepDetach_on_ground, resolveAxis_on_ground]
    simp
  · rw [stepDetach_jump_buffer_timer, resolveAxisF_jump_buffer_timer, hm1b]
  · rw [hvyfin]
    exact le_of_lt hV2
  · rw [hvyfin]
    exact hV2
  · rw [hvxfin, hvyfin]
    exact hnorm

theorem update_free_iter (dt : ℝ) (s0 : MState ℝ) (hdt0 : 0 < dt)
    (hdt1 : dt < 5/13) (h0 : airborneFree s0) (k : ℕ) :
    airborneFree ((update [] rightInp dt)^[k] s0) ∧
    (k ≠ 0 → 0 < ((update [] rightInp dt)^[k] s0).vy ∧
      ((update [] rightInp dt)^[k] s0).vx ^ 2
        + ((update [] rightInp dt)^[k] s0).vy ^ 2 ≤ MAX_SPEED ^ 2) := by
  induction k with
  | zero => exact ⟨h0, fun hk => absurd rfl hk⟩
  | succ m ih =>
    rw [Function.iterate_succ_apply']
    have hstep := update_free_step dt _ hdt0 hdt1 ih.1
    exact ⟨hstep.1, fun _ => ⟨hstep.2.1, hstep.2.2⟩⟩

theorem update_free_vx_lt (dt : ℝ) (s0 : MState ℝ) (k : ℕ)
    (hdt0 : 0 < dt) (hdt1 : dt < 5/13) (h0 : airborneFree s0) (hk : k ≠ 0) :
    ((update [] rightInp dt)^[k] s0).vx < MAX_SPEED := by
  have h := (update_free_iter dt s0 hdt0 hdt1 h0 k).2 hk
  have hvy2 : 0 < ((update [] rightInp dt)^[k] s0).vy ^ 2 := pow_pos h.1 2
  have hsq : ((update [] rightInp dt)^[k] s0).vx ^ 2 < MAX_SPEED ^ 2 := by
    linarith [h.2]
  exact lt_of_pow_lt_pow_left 2 (le_of_lt MAX_SPEED_pos) hsq

/-- C7, amended: starting from rest at the spawn of the default arena with
constant full-rightward input and no tiles, after one second simulated as
`n ≥ 3` uniform steps of `dt = 1/n`, the horizontal velocity is strictly
below `MAX_SPEED` — not equal to it: the vector speed clamp couples `vx`
with the always-positive sinking `vy`, so `vx` can approach but never
reach `min (ACCEL/DRAG) MAX_SPEED = MAX_SPEED = 220`. -/
theorem C7_full_speed (n : ℕ) (hn : 3 ≤ n) :
    ((update [] rightInp (1 / (n:ℝ)))^[n]
        (initState ((find_spawn defaultLevel).1 : ℝ)
          ((find_spawn defaultLevel).2 : ℝ))).vx < MAX_SPEED ∧
    min (ACCEL / DRAG) MAX_SPEED = MAX_SPEED := by
  have hn0 : (0:ℝ) < (n:ℝ) := by
    have : (0:ℕ) < n := by omega
    exact_mod_cast this
  have h3 : (3:ℝ) ≤ (n:ℝ) := by exact_mod_cast hn
  constructor
  · apply update_free_vx_lt
    · exact div_pos one_pos hn0
    · rw [div_lt_div_iff hn0 (by norm_num)]
      linarith
    · exact airborneFree_initState _ _
    · omega
  · norm_num [min_def, ACCEL, DRAG, MAX_SPEED]

/-- C7, counterexample to the claim as stated: at the standard 60 Hz
discretization the second of full-rightward input from the spawn
`(352, 96)` ends with `vx ≠ 220` — strictly below the clamp, because the
sinking vertical velocity always takes part of the speed budget. -/
theorem C7_counterexample :
    find_spawn defaultLevel = (352, 96) ∧
    ((update [] rightInp (1/60 : ℝ))^[60] (initState 352 96)).vx
      ≠ MAX_SPEED := by
  refine ⟨by decide, ?_⟩
  exact ne_of_lt (update_free_vx_lt (1/60) (initState 352 96) 60
    (by norm_num) (by norm_num) (airborneFree_initState _ _) (by norm_num))

/-- C7 witness: the amended theorem applied at the concrete subdivision
`n = 3`. -/
theorem C7_witness :
    (3:ℕ) ≤ 3 ∧
    ((update [] rightInp (1 / ((3:ℕ):ℝ)))^[3]
        (initState ((find_spawn defaultLevel).1 : ℝ)
          ((find_spawn defaultLevel).2 : ℝ))).vx < MAX_SPEED :=
  ⟨by norm_num, (C7_full_speed 3 (by norm_num)).1⟩
